import Mathlib

/-!
# Resource lifecycle handlers of the Akamai provider

A shallow embedding of the lifecycle handlers of three resources
(`akamai_appsec_eval_rule`, `akamai_appsec_ip_geo_protection`, `akamai_cp_code`).

* A handler is a function from the record it is given and the history of remote
  calls so far to a `Run`: the diagnostics it returns, the record it leaves and the
  remote calls it issued, in order.
* The remote side is a family of response functions of the call history, so a
  remote service with state of its own (versions that get cloned, rules that get
  updated) is covered.
* Go `int` is the 64-bit signed range; the handlers never do arithmetic on it, they
  only print it (`%d`) and parse it (`strconv.Atoi`).
* A handler that dereferences a nil response, indexes past a slice or fails a type
  assertion does not return: its run ends in `Outcome.panic`, with the record as it was at
  that point.
* Every `d.Set` of the handlers passes a value of the schema type of its key, so `d.Set`
  returns no error and the branch on its error is never taken. Logging has no effect on the
  run and is left out.
-/

namespace Akamai

/-! ## Go library functions used by the handlers -/

/-- The decimal digits of `n`, least significant first; `fuel` bounds the number of digits. -/
def digitsLE : Nat → Nat → List Nat
  | 0, _ => []
  | fuel + 1, n => if n < 10 then [n] else (n % 10) :: digitsLE fuel (n / 10)

/-- The character of a decimal digit. -/
def digitChar (d : Nat) : Char := Char.ofNat (48 + d)

/-- Decimal rendering of a natural number, most significant digit first, no leading zero. -/
def formatUint (n : Nat) : List Char := ((digitsLE (n + 1) n).reverse).map digitChar

/-- Verb `%d` of `fmt.Sprintf` on an `int`. -/
def formatInt (i : Int) : List Char :=
  if i < 0 then '-' :: formatUint i.natAbs else formatUint i.natAbs

/-- Decimal rendering of an `int` as a string. -/
def decimal (i : Int) : String := String.mk (formatInt i)

/-- Whether a character is an ASCII decimal digit. -/
def isDigit (c : Char) : Bool := decide (48 ≤ c.toNat) && decide (c.toNat ≤ 57)

/-- The value of a run of decimal digits, most significant first. -/
def parseUint (cs : List Char) : Nat := cs.foldl (fun acc c => acc * 10 + (c.toNat - 48)) 0

/-- Smallest Go `int`. -/
def minInt : Int := -9223372036854775808

/-- Largest Go `int`. -/
def maxInt : Int := 9223372036854775807

/-- The values of the Go type `int`. -/
def isGoInt (i : Int) : Prop := minInt ≤ i ∧ i ≤ maxInt

instance (i : Int) : Decidable (isGoInt i) := by unfold isGoInt; infer_instance

/-- Errors that come back from the remote API client libraries (`appsec`, `papi-v1`,
`client-v1`). These libraries are upstream of the provider, so none of their errors is one of
the provider's own sentinel errors. -/
inductive ClientErr where
  /-- A `client.APIError`, with its raw body. -/
  | APIError (rawBody : String)
  /-- Any other error value of a client library. -/
  | other (msg : String)
  deriving DecidableEq, Repr

/-- Error values that the handlers produce or pass on. -/
inductive Err where
  /-- Sentinel `tools.ErrNotFound`, wrapped with the key. -/
  | ErrNotFound (key : String)
  /-- Sentinel `tools.ErrInvalidType`, wrapped with the key. -/
  | ErrInvalidType (key : String)
  /-- Error `strconv.ErrSyntax` of `strconv.Atoi`. -/
  | ErrSyntax (input : String)
  /-- Error `strconv.ErrRange` of `strconv.Atoi`. -/
  | ErrRange (input : String)
  /-- Error of `splitID`: the identity and the format it should have had. -/
  | badID (id : String) (expectedFormat : String)
  /-- Error returned by `validateActionAndConditionException`. -/
  | validation (msg : String)
  /-- An error of a client library, passed on unchanged. -/
  | client (e : ClientErr)
  /-- Sentinel `ErrPAPICPCodeModify`, wrapped with a message by `fmt.Errorf("...: %w", ...)`. -/
  | ErrPAPICPCodeModify (msg : String)
  /-- Diagnostic "Error Marshalling condition exception". -/
  | marshal
  deriving DecidableEq, Repr

deriving instance DecidableEq for Except

/-- Largest `uint64`. -/
def maxUint64 : Nat := 18446744073709551615

/-- The digit loop of `strconv.ParseUint(s, 10, 64)`, which `strconv.Atoi` runs on the text
after the sign: each character has to be a decimal digit (`ErrSyntax` otherwise), and the
value read so far has to stay a `uint64` (`ErrRange` otherwise, at once, whatever follows). -/
def parseUintLoop (s : String) : List Char → Nat → Except Err Nat
  | [], n => .ok n
  | c :: cs, n =>
    if !isDigit c then .error (.ErrSyntax s)
    else if n ≥ maxUint64 / 10 + 1 then .error (.ErrRange s)
    else if n * 10 + (c.toNat - 48) > maxUint64 then .error (.ErrRange s)
    else parseUintLoop s cs (n * 10 + (c.toNat - 48))

/-- Function `strconv.Atoi`: an optional sign, then at least one decimal digit, read by the
digit loop; the signed value has to be a Go `int`. -/
def Atoi (s : String) : Except Err Int :=
  let neg : Bool := decide (s.data.head? = some '-')
  let signed : Bool := neg || decide (s.data.head? = some '+')
  let body : List Char := if signed then s.data.tail else s.data
  if body = [] then .error (.ErrSyntax s)
  else
    match parseUintLoop s body 0 with
    | .error e => .error e
    | .ok un =>
      if !neg && decide (un ≥ 9223372036854775808) then .error (.ErrRange s)
      else if neg && decide (un > 9223372036854775808) then .error (.ErrRange s)
      else .ok (if neg then -((un : Nat) : Int) else ((un : Nat) : Int))

/-- Function `strings.Split(s, ":")` on the characters of `s`. -/
def splitColon : List Char → List (List Char)
  | [] => [[]]
  | c :: cs =>
    if c = ':' then [] :: splitColon cs
    else match splitColon cs with
      | [] => [[c]]
      | h :: t => (c :: h) :: t

/-- Function `strings.Split(s, ":")`. -/
def Split (s : String) : List String := (splitColon s.data).map String.mk

/-- Modelled from the spec: `splitID`, the identity decoder of the `appsec` package, whose
body is not among the sources. Spec 4.1, `Decode`: "splits on `:`; fails with a descriptive
error naming `expectedFormat` when the part count differs from `expectedCount`". -/
def splitID (id : String) (expectedNum : Nat) (expectedFormat : String) :
    Except Err (List String) :=
  let parts := Split id
  if parts.length ≠ expectedNum then .error (.badID id expectedFormat) else .ok parts


/-- Call `fmt.Sprintf("%d:%s:%d", c, p, r)`. -/
def Sprintf_d_s_d (c : Int) (p : String) (r : Int) : String :=
  decimal c ++ ":" ++ p ++ ":" ++ decimal r

/-- Call `fmt.Sprintf("%d:%s", c, p)`. -/
def Sprintf_d_s (c : Int) (p : String) : String :=
  decimal c ++ ":" ++ p

/-! ## Records and accessors -/

/-- What the accessors `tools.Get*Value` find under a key of the record. -/
inductive Attr (α : Type) where
  /-- Nothing is set under the key. -/
  | unset
  /-- A value of the schema type is set. -/
  | value (v : α)
  /-- Something of another type is set. -/
  | mistyped
  deriving DecidableEq, Repr

/-- Modelled from the spec: `tools.GetIntValue`, `tools.GetStringValue` and
`tools.GetBoolValue`, whose bodies are not among the sources. Spec 7(a): "missing or
wrong-typed field". The result is the Go pair of a value (the zero value on error) and an
error: `tools.ErrNotFound` when the field is missing, `tools.ErrInvalidType` when it has
another type. -/
def GetValue {α : Type} (zero : α) (key : String) (a : Attr α) : α × Option Err :=
  match a with
  | .value v => (v, none)
  | .unset => (zero, some (.ErrNotFound key))
  | .mistyped => (zero, some (.ErrInvalidType key))

/-- Accessor `tools.GetIntValue`. -/
def GetIntValue (key : String) (a : Attr Int) : Int × Option Err := GetValue 0 key a

/-- Accessor `tools.GetStringValue`. -/
def GetStringValue (key : String) (a : Attr String) : String × Option Err := GetValue "" key a

/-- Accessor `tools.GetBoolValue`. -/
def GetBoolValue (key : String) (a : Attr Bool) : Bool × Option Err := GetValue false key a

/-- Test `errors.Is(err, tools.ErrNotFound)`. -/
def isErrNotFound : Err → Bool
  | .ErrNotFound _ => true
  | _ => false

/-- Test `errors.Is(err, ErrPAPICPCodeModify)`. -/
def isErrPAPICPCodeModify : Err → Bool
  | .ErrPAPICPCodeModify _ => true
  | _ => false

/-- Guard `err != nil && !errors.Is(err, tools.ErrNotFound)`: the error to return, if any. -/
def fatalUnlessNotFound : Option Err → Option Err
  | some e => if isErrNotFound e then none else some e
  | none => none

/-- The record (`*schema.ResourceData`) of an eval-rule resource: identity and schema fields. -/
structure EvalRuleData where
  id : String
  config_id : Attr Int
  security_policy_id : Attr String
  rule_id : Attr Int
  rule_action : Attr String
  condition_exception : Attr String
  deriving DecidableEq, Repr

/-- The record of an IP/Geo protection resource. -/
structure IPGeoProtectionData where
  id : String
  config_id : Attr Int
  security_policy_id : Attr String
  enabled : Attr Bool
  output_text : Attr String
  deriving DecidableEq, Repr

/-- A Go interface value as `d.Get` returns it. -/
inductive Value where
  | str (s : String)
  | int (i : Int)
  | bool (b : Bool)
  deriving DecidableEq, Repr

/-- Type assertion `v.(string)`: the string and `ok`. -/
def Value.assertString : Value → String × Bool
  | .str s => (s, true)
  | _ => ("", false)

/-- The record of a CP-code resource: identity, the fields as `d.Get` returns them, and the
stored state of the three fields that `d.HasChange` is asked about. -/
structure CPCodeData where
  id : String
  name : Value
  contract : Value
  group : Value
  product : Value
  state_contract : Value
  state_group : Value
  state_product : Value
  deriving DecidableEq, Repr

/-- Method `d.HasChange("contract")`: the stored state differs from the value in the record. -/
def CPCodeData.HasChange_contract (d : CPCodeData) : Bool := decide (d.state_contract ≠ d.contract)

/-- Method `d.HasChange("product")`. -/
def CPCodeData.HasChange_product (d : CPCodeData) : Bool := decide (d.state_product ≠ d.product)

/-- Method `d.HasChange("group")`. -/
def CPCodeData.HasChange_group (d : CPCodeData) : Bool := decide (d.state_group ≠ d.group)

/-! ## Requests, responses and the remote side -/

/-- Request `appsec.UpdateEvalRuleRequest`; `JsonPayloadRaw` is kept as the string whose bytes
it holds, the empty string for a payload that is not set. -/
structure UpdateEvalRuleRequest where
  ConfigID : Int
  Version : Int
  PolicyID : String
  RuleID : Int
  Action : String
  JsonPayloadRaw : String
  deriving DecidableEq, Repr

/-- Request `appsec.GetEvalRuleRequest`. -/
structure GetEvalRuleRequest where
  ConfigID : Int
  Version : Int
  PolicyID : String
  RuleID : Int
  deriving DecidableEq, Repr

/-- The condition exception of a rule, an SDK struct that the handler only passes to
`json.Marshal`; kept as its content. -/
structure RuleConditionException where
  content : String
  deriving DecidableEq, Repr

/-- Response `appsec.GetEvalRuleResponse`. -/
structure GetEvalRuleResponse where
  Action : String
  ConditionException : Option RuleConditionException
  deriving DecidableEq, Repr

/-- Request `appsec.GetPolicyProtectionsRequest`. -/
structure GetPolicyProtectionsRequest where
  ConfigID : Int
  Version : Int
  PolicyID : String
  deriving DecidableEq, Repr

/-- Response `appsec.GetPolicyProtectionsResponse`. -/
structure GetPolicyProtectionsResponse where
  ApplyAPIConstraints : Bool
  ApplyApplicationLayerControls : Bool
  ApplyBotmanControls : Bool
  ApplyNetworkLayerControls : Bool
  ApplyRateControls : Bool
  ApplyReputationControls : Bool
  ApplySlowPostControls : Bool
  deriving DecidableEq, Repr

/-- Request `appsec.UpdatePolicyProtectionsRequest`. -/
structure UpdatePolicyProtectionsRequest where
  ConfigID : Int
  Version : Int
  PolicyID : String
  ApplyAPIConstraints : Bool
  ApplyApplicationLayerControls : Bool
  ApplyBotmanControls : Bool
  ApplyNetworkLayerControls : Bool
  ApplyRateControls : Bool
  ApplyReputationControls : Bool
  ApplySlowPostControls : Bool
  deriving DecidableEq, Repr

/-- A CP code of the `papi-v1` library (`papi.CpCode`), the fields the handlers touch. -/
structure CpCode where
  CpcodeID : String
  CpcodeName : String
  ProductID : String
  ProductIDs : List String
  deriving DecidableEq, Repr

/-- One interaction with the remote side. -/
inductive Call where
  /-- Resolution `getModifiableConfigVersion(ctx, configID, resource, m)`. -/
  | getModifiableConfigVersion (configID : Int) (resource : String)
  /-- Resolution `getLatestConfigVersion(ctx, configID, m)`. -/
  | getLatestConfigVersion (configID : Int)
  | UpdateEvalRule (req : UpdateEvalRuleRequest)
  | GetEvalRule (req : GetEvalRuleRequest)
  | GetPolicyProtections (req : GetPolicyProtectionsRequest)
  | UpdatePolicyProtections (req : UpdatePolicyProtectionsRequest)
  /-- Lookup `cpCodes.FindCpCode(key, ...)` on the CP codes of a contract and group. -/
  | FindCpCode (contract group key : String)
  /-- Creation `cpCode.Save(...)` of a CP code under a contract and group. -/
  | Save (contract group : String) (cpCode : CpCode)
  deriving DecidableEq, Repr

/-- Everything the handlers call whose body lies outside the three handler files: the remote
API clients, the two version resolvers, the cross-field validator and the helpers of the SDK.
Each remote operation answers as a function of the calls issued before it. A response that Go
returns as a pair of a pointer and an error is a pair of options; an operation whose response
the handlers drop gives only its error. -/
structure Env where
  getModifiableConfigVersion : List Call → Int → String → Int
  getLatestConfigVersion : List Call → Int → Int
  validateActionAndConditionException : String → String → Option Err
  UpdateEvalRule : List Call → UpdateEvalRuleRequest → Option ClientErr
  GetEvalRule : List Call → GetEvalRuleRequest → Option GetEvalRuleResponse × Option ClientErr
  /-- Method `IsEmptyConditionException` of the response. -/
  IsEmptyConditionException : GetEvalRuleResponse → Bool
  /-- Call `json.Marshal(evalrule.ConditionException)`: the JSON text, or nothing on error. -/
  jsonMarshal : Option RuleConditionException → Option String
  GetPolicyProtections : List Call → GetPolicyProtectionsRequest →
    Option GetPolicyProtectionsResponse × Option ClientErr
  UpdatePolicyProtections : List Call → UpdatePolicyProtectionsRequest → Option ClientErr
  /-- Call `RenderTemplates(ots, name, policyProtections)`: the text, or nothing on error. -/
  RenderTemplates : String → GetPolicyProtectionsResponse → Option String
  FindCpCode : List Call → String → String → String → Option CpCode × Option ClientErr
  /-- Method `cpCode.Save`: the CP code as the call leaves it, and the error. -/
  Save : List Call → String → String → CpCode → CpCode × Option ClientErr

/-- How a handler ends. -/
inductive Outcome where
  /-- It returns no diagnostics (`nil`). -/
  | ok
  /-- It returns an error. -/
  | error (e : Err)
  /-- It does not return: a nil pointer is dereferenced or a type assertion fails. -/
  | panic
  deriving DecidableEq, Repr

/-- What running a handler gives: how it ends, the record it leaves, and the remote
interactions it issued, in order. -/
structure Run (δ : Type) where
  result : Outcome
  d : δ
  calls : List Call
  deriving DecidableEq, Repr

/-- Whether an interaction is an `UpdateEvalRule` request. -/
def Call.isUpdateEvalRule : Call → Bool
  | .UpdateEvalRule _ => true
  | _ => false

/-! ## Eval-rule resource (`resource_akamai_appsec_eval_rule.go`) -/

/-- Handler `resourceEvalRuleRead`. The remote error of `GetEvalRule` is only logged; the
three fields of the request are written before the response is first dereferenced. -/
def resourceEvalRuleRead (env : Env) (d : EvalRuleData) (hist : List Call) : Run EvalRuleData :=
  match splitID d.id 3 "configID:securityPolicyID:ruleID" with
  | .error e => ⟨.error e, d, []⟩
  | .ok iDParts =>
  match iDParts[0]? with
  | none => ⟨.panic, d, []⟩
  | some part0 =>
  match Atoi part0 with
  | .error e => ⟨.error e, d, []⟩
  | .ok configID =>
  let version := env.getLatestConfigVersion hist configID
  let c1 := Call.getLatestConfigVersion configID
  match iDParts[1]? with
  | none => ⟨.panic, d, [c1]⟩
  | some policyID =>
  match iDParts[2]? with
  | none => ⟨.panic, d, [c1]⟩
  | some part2 =>
  match Atoi part2 with
  | .error e => ⟨.error e, d, [c1]⟩
  | .ok ruleID =>
  let getEvalRule : GetEvalRuleRequest :=
    { ConfigID := configID, Version := version, PolicyID := policyID, RuleID := ruleID }
  let c2 := Call.GetEvalRule getEvalRule
  let evalrule := (env.GetEvalRule (hist ++ [c1]) getEvalRule).1
  let d1 := { d with config_id := .value getEvalRule.ConfigID }
  let d2 := { d1 with security_policy_id := .value getEvalRule.PolicyID }
  let d3 := { d2 with rule_id := .value getEvalRule.RuleID }
  match evalrule with
  | none => ⟨.panic, d3, [c1, c2]⟩
  | some evalrule =>
  let d4 := { d3 with rule_action := .value evalrule.Action }
  if !env.IsEmptyConditionException evalrule then
    match env.jsonMarshal evalrule.ConditionException with
    | none => ⟨.error .marshal, d4, [c1, c2]⟩
    | some jsonBody => ⟨.ok, { d4 with condition_exception := .value jsonBody }, [c1, c2]⟩
  else ⟨.ok, d4, [c1, c2]⟩

/-- Handler `resourceEvalRuleCreate`. -/
def resourceEvalRuleCreate (env : Env) (d : EvalRuleData) (hist : List Call) : Run EvalRuleData :=
  let (configID, err) := GetIntValue "config_id" d.config_id
  match fatalUnlessNotFound err with
  | some e => ⟨.error e, d, []⟩
  | none =>
  let version := env.getModifiableConfigVersion hist configID "evalRule"
  let c1 := Call.getModifiableConfigVersion configID "evalRule"
  let (policyID, err) := GetStringValue "security_policy_id" d.security_policy_id
  match fatalUnlessNotFound err with
  | some e => ⟨.error e, d, [c1]⟩
  | none =>
  let (ruleID, err) := GetIntValue "rule_id" d.rule_id
  match fatalUnlessNotFound err with
  | some e => ⟨.error e, d, [c1]⟩
  | none =>
  let (action, err) := GetStringValue "rule_action" d.rule_action
  match err with
  | some e => ⟨.error e, d, [c1]⟩
  | none =>
  let (conditionexception, err) := GetStringValue "condition_exception" d.condition_exception
  match fatalUnlessNotFound err with
  | some e => ⟨.error e, d, [c1]⟩
  | none =>
  let rawJSON := conditionexception
  match env.validateActionAndConditionException action conditionexception with
  | some e => ⟨.error e, d, [c1]⟩
  | none =>
  let createEvalRule : UpdateEvalRuleRequest :=
    { ConfigID := configID, Version := version, PolicyID := policyID, RuleID := ruleID,
      Action := action, JsonPayloadRaw := rawJSON }
  let c2 := Call.UpdateEvalRule createEvalRule
  let _err := env.UpdateEvalRule (hist ++ [c1]) createEvalRule
  let newID :=
    Sprintf_d_s_d createEvalRule.ConfigID createEvalRule.PolicyID createEvalRule.RuleID
  let d1 := { d with id := newID }
  let r := resourceEvalRuleRead env d1 (hist ++ [c1, c2])
  ⟨r.result, r.d, [c1, c2] ++ r.calls⟩

/-- Handler `resourceEvalRuleUpdate`. -/
def resourceEvalRuleUpdate (env : Env) (d : EvalRuleData) (hist : List Call) : Run EvalRuleData :=
  match splitID d.id 3 "configID:securityPolicyID:ruleID" with
  | .error e => ⟨.error e, d, []⟩
  | .ok iDParts =>
  match iDParts[0]? with
  | none => ⟨.panic, d, []⟩
  | some part0 =>
  match Atoi part0 with
  | .error e => ⟨.error e, d, []⟩
  | .ok configID =>
  let version := env.getModifiableConfigVersion hist configID "evalRule"
  let c1 := Call.getModifiableConfigVersion configID "evalRule"
  match iDParts[1]? with
  | none => ⟨.panic, d, [c1]⟩
  | some policyID =>
  match iDParts[2]? with
  | none => ⟨.panic, d, [c1]⟩
  | some part2 =>
  match Atoi part2 with
  | .error e => ⟨.error e, d, [c1]⟩
  | .ok ruleID =>
  let (action, err) := GetStringValue "rule_action" d.rule_action
  match err with
  | some e => ⟨.error e, d, [c1]⟩
  | none =>
  let (conditionexception, err) := GetStringValue "condition_exception" d.condition_exception
  match fatalUnlessNotFound err with
  | some e => ⟨.error e, d, [c1]⟩
  | none =>
  match env.validateActionAndConditionException action conditionexception with
  | some e => ⟨.error e, d, [c1]⟩
  | none =>
  let rawJSON := conditionexception
  let updateEvalRule : UpdateEvalRuleRequest :=
    { ConfigID := configID, Version := version, PolicyID := policyID, RuleID := ruleID,
      Action := action, JsonPayloadRaw := rawJSON }
  let c2 := Call.UpdateEvalRule updateEvalRule
  let _err := env.UpdateEvalRule (hist ++ [c1]) updateEvalRule
  let r := resourceEvalRuleRead env d (hist ++ [c1, c2])
  ⟨r.result, r.d, [c1, c2] ++ r.calls⟩

/-- Handler `resourceEvalRuleDelete`. -/
def resourceEvalRuleDelete (env : Env) (d : EvalRuleData) (hist : List Call) : Run EvalRuleData :=
  match splitID d.id 3 "configID:securityPolicyID:ruleID" with
  | .error e => ⟨.error e, d, []⟩
  | .ok iDParts =>
  match iDParts[0]? with
  | none => ⟨.panic, d, []⟩
  | some part0 =>
  match Atoi part0 with
  | .error e => ⟨.error e, d, []⟩
  | .ok configID =>
  let version := env.getModifiableConfigVersion hist configID "evalRule"
  let c1 := Call.getModifiableConfigVersion configID "evalRule"
  match iDParts[1]? with
  | none => ⟨.panic, d, [c1]⟩
  | some policyID =>
  match iDParts[2]? with
  | none => ⟨.panic, d, [c1]⟩
  | some part2 =>
  match Atoi part2 with
  | .error e => ⟨.error e, d, [c1]⟩
  | .ok ruleID =>
  let removeEvalRule : UpdateEvalRuleRequest :=
    { ConfigID := configID, Version := version, PolicyID := policyID, RuleID := ruleID,
      Action := "none", JsonPayloadRaw := "" }
  let c2 := Call.UpdateEvalRule removeEvalRule
  match env.UpdateEvalRule (hist ++ [c1]) removeEvalRule with
  | some e => ⟨.error (.client e), d, [c1, c2]⟩
  | none => ⟨.ok, { d with id := "" }, [c1, c2]⟩

/-! ## IP/Geo protection resource (`resource_akamai_appsec_ip_geo_protection.go`) -/

/-- Handler `resourceIPGeoProtectionRead`. -/
def resourceIPGeoProtectionRead (env : Env) (d : IPGeoProtectionData) (hist : List Call) :
    Run IPGeoProtectionData :=
  match splitID d.id 2 "configID:securityPolicyID" with
  | .error e => ⟨.error e, d, []⟩
  | .ok iDParts =>
  match iDParts[0]? with
  | none => ⟨.panic, d, []⟩
  | some part0 =>
  match Atoi part0 with
  | .error e => ⟨.error e, d, []⟩
  | .ok configID =>
  let version := env.getLatestConfigVersion hist configID
  let c1 := Call.getLatestConfigVersion configID
  match iDParts[1]? with
  | none => ⟨.panic, d, [c1]⟩
  | some policyID =>
  let policyProtectionsRequest : GetPolicyProtectionsRequest :=
    { ConfigID := configID, Version := version, PolicyID := policyID }
  let c2 := Call.GetPolicyProtections policyProtectionsRequest
  match env.GetPolicyProtections (hist ++ [c1]) policyProtectionsRequest with
  | (_, some e) => ⟨.error (.client e), d, [c1, c2]⟩
  | (none, none) => ⟨.panic, d, [c1, c2]⟩
  | (some policyProtections, none) =>
  let enabled := policyProtections.ApplyNetworkLayerControls
  let d1 := { d with config_id := .value configID }
  let d2 := { d1 with security_policy_id := .value policyID }
  let d3 := { d2 with enabled := .value enabled }
  match env.RenderTemplates "networkProtectionDS" policyProtections with
  | some outputtext => ⟨.ok, { d3 with output_text := .value outputtext }, [c1, c2]⟩
  | none => ⟨.ok, d3, [c1, c2]⟩

/-- Handler `resourceIPGeoProtectionCreate`. -/
def resourceIPGeoProtectionCreate (env : Env) (d : IPGeoProtectionData) (hist : List Call) :
    Run IPGeoProtectionData :=
  let (configID, err) := GetIntValue "config_id" d.config_id
  match fatalUnlessNotFound err with
  | some e => ⟨.error e, d, []⟩
  | none =>
  let version := env.getModifiableConfigVersion hist configID "ipgeoProtection"
  let c1 := Call.getModifiableConfigVersion configID "ipgeoProtection"
  let (policyID, err) := GetStringValue "security_policy_id" d.security_policy_id
  match fatalUnlessNotFound err with
  | some e => ⟨.error e, d, [c1]⟩
  | none =>
  let (enabled, err) := GetBoolValue "enabled" d.enabled
  match fatalUnlessNotFound err with
  | some e => ⟨.error e, d, [c1]⟩
  | none =>
  let getPolicyProtectionsRequest : GetPolicyProtectionsRequest :=
    { ConfigID := configID, Version := version, PolicyID := policyID }
  let c2 := Call.GetPolicyProtections getPolicyProtectionsRequest
  match env.GetPolicyProtections (hist ++ [c1]) getPolicyProtectionsRequest with
  | (_, some e) => ⟨.error (.client e), d, [c1, c2]⟩
  | (none, none) => ⟨.panic, d, [c1, c2]⟩
  | (some policyProtections, none) =>
  let updatePolicyProtectionsRequest : UpdatePolicyProtectionsRequest :=
    { ConfigID := configID
      Version := version
      PolicyID := policyID
      ApplyAPIConstraints := policyProtections.ApplyAPIConstraints
      ApplyApplicationLayerControls := policyProtections.ApplyApplicationLayerControls
      ApplyBotmanControls := policyProtections.ApplyBotmanControls
      ApplyNetworkLayerControls := enabled
      ApplyRateControls := policyProtections.ApplyRateControls
      ApplyReputationControls := policyProtections.ApplyReputationControls
      ApplySlowPostControls := policyProtections.ApplySlowPostControls }
  let c3 := Call.UpdatePolicyProtections updatePolicyProtectionsRequest
  match env.UpdatePolicyProtections (hist ++ [c1, c2]) updatePolicyProtectionsRequest with
  | some e => ⟨.error (.client e), d, [c1, c2, c3]⟩
  | none =>
  let d1 := { d with id := Sprintf_d_s configID policyID }
  let r := resourceIPGeoProtectionRead env d1 (hist ++ [c1, c2, c3])
  ⟨r.result, r.d, [c1, c2, c3] ++ r.calls⟩

/-- Handler `resourceIPGeoProtectionUpdate`. -/
def resourceIPGeoProtectionUpdate (env : Env) (d : IPGeoProtectionData) (hist : List Call) :
    Run IPGeoProtectionData :=
  match splitID d.id 2 "configID:securityPolicyID" with
  | .error e => ⟨.error e, d, []⟩
  | .ok iDParts =>
  match iDParts[0]? with
  | none => ⟨.panic, d, []⟩
  | some part0 =>
  match Atoi part0 with
  | .error e => ⟨.error e, d, []⟩
  | .ok configID =>
  let version := env.getModifiableConfigVersion hist configID "networkProtection"
  let c1 := Call.getModifiableConfigVersion configID "networkProtection"
  match iDParts[1]? with
  | none => ⟨.panic, d, [c1]⟩
  | some policyID =>
  let (enabled, err) := GetBoolValue "enabled" d.enabled
  match fatalUnlessNotFound err with
  | some e => ⟨.error e, d, [c1]⟩
  | none =>
  let getPolicyProtectionsRequest : GetPolicyProtectionsRequest :=
    { ConfigID := configID, Version := version, PolicyID := policyID }
  let c2 := Call.GetPolicyProtections getPolicyProtectionsRequest
  match env.GetPolicyProtections (hist ++ [c1]) getPolicyProtectionsRequest with
  | (_, some e) => ⟨.error (.client e), d, [c1, c2]⟩
  | (none, none) => ⟨.panic, d, [c1, c2]⟩
  | (some policyProtections, none) =>
  let updatePolicyProtectionsRequest : UpdatePolicyProtectionsRequest :=
    { ConfigID := configID
      Version := version
      PolicyID := policyID
      ApplyAPIConstraints := policyProtections.ApplyAPIConstraints
      ApplyApplicationLayerControls := policyProtections.ApplyApplicationLayerControls
      ApplyBotmanControls := policyProtections.ApplyBotmanControls
      ApplyNetworkLayerControls := enabled
      ApplyRateControls := policyProtections.ApplyRateControls
      ApplyReputationControls := policyProtections.ApplyReputationControls
      ApplySlowPostControls := policyProtections.ApplySlowPostControls }
  let c3 := Call.UpdatePolicyProtections updatePolicyProtectionsRequest
  match env.UpdatePolicyProtections (hist ++ [c1, c2]) updatePolicyProtectionsRequest with
  | some e => ⟨.error (.client e), d, [c1, c2, c3]⟩
  | none =>
  let r := resourceIPGeoProtectionRead env d (hist ++ [c1, c2, c3])
  ⟨r.result, r.d, [c1, c2, c3] ++ r.calls⟩

/-- Handler `resourceIPGeoProtectionDelete`. -/
def resourceIPGeoProtectionDelete (env : Env) (d : IPGeoProtectionData) (hist : List Call) :
    Run IPGeoProtectionData :=
  match splitID d.id 2 "configID:securityPolicyID" with
  | .error e => ⟨.error e, d, []⟩
  | .ok iDParts =>
  match iDParts[0]? with
  | none => ⟨.panic, d, []⟩
  | some part0 =>
  match Atoi part0 with
  | .error e => ⟨.error e, d, []⟩
  | .ok configID =>
  let version := env.getModifiableConfigVersion hist configID "ipgeoProtection"
  let c1 := Call.getModifiableConfigVersion configID "ipgeoProtection"
  match iDParts[1]? with
  | none => ⟨.panic, d, [c1]⟩
  | some policyID =>
  let getPolicyProtectionsRequest : GetPolicyProtectionsRequest :=
    { ConfigID := configID, Version := version, PolicyID := policyID }
  let c2 := Call.GetPolicyProtections getPolicyProtectionsRequest
  match env.GetPolicyProtections (hist ++ [c1]) getPolicyProtectionsRequest with
  | (_, some e) => ⟨.error (.client e), d, [c1, c2]⟩
  | (none, none) => ⟨.panic, d, [c1, c2]⟩
  | (some policyProtections, none) =>
  let updatePolicyProtectionsRequest : UpdatePolicyProtectionsRequest :=
    { ConfigID := configID
      Version := version
      PolicyID := policyID
      ApplyAPIConstraints := policyProtections.ApplyAPIConstraints
      ApplyApplicationLayerControls := policyProtections.ApplyApplicationLayerControls
      ApplyBotmanControls := policyProtections.ApplyBotmanControls
      ApplyNetworkLayerControls := false
      ApplyRateControls := policyProtections.ApplyRateControls
      ApplyReputationControls := policyProtections.ApplyReputationControls
      ApplySlowPostControls := policyProtections.ApplySlowPostControls }
  let c3 := Call.UpdatePolicyProtections updatePolicyProtectionsRequest
  match env.UpdatePolicyProtections (hist ++ [c1, c2]) updatePolicyProtectionsRequest with
  | some e => ⟨.error (.client e), d, [c1, c2, c3]⟩
  | none => ⟨.ok, { d with id := "" }, [c1, c2, c3]⟩

/-! ## CP-code resource (`resource_akamai_cp_code.go`) -/

/-- Handler `resourceCPCodeRead`. -/
def resourceCPCodeRead (env : Env) (d : CPCodeData) (hist : List Call) : Run CPCodeData :=
  let (name, ok) := d.name.assertString
  if !ok then ⟨.error (.ErrInvalidType "name"), d, []⟩ else
  let (group, ok) := d.group.assertString
  if !ok then ⟨.error (.ErrInvalidType "group"), d, []⟩ else
  let (contract, ok) := d.contract.assertString
  if !ok then ⟨.error (.ErrInvalidType "contract"), d, []⟩ else
  let c1 := Call.FindCpCode contract group d.id
  let (cpCode, err) := env.FindCpCode hist contract group d.id
  if cpCode.isNone || err.isSome then
    let c2 := Call.FindCpCode contract group name
    match env.FindCpCode (hist ++ [c1]) contract group name with
    | (_, some e) => ⟨.error (.client e), d, [c1, c2]⟩
    | (none, none) => ⟨.ok, d, [c1, c2]⟩
    | (some cpCode, none) => ⟨.ok, { d with id := cpCode.CpcodeID }, [c1, c2]⟩
  else
    match cpCode with
    | none => ⟨.ok, d, [c1]⟩
    | some cpCode => ⟨.ok, { d with id := cpCode.CpcodeID }, [c1]⟩

/-- Handler `resourceCPCodeUpdate`. -/
def resourceCPCodeUpdate (env : Env) (d : CPCodeData) (hist : List Call) : Run CPCodeData :=
  if d.HasChange_contract then
    ⟨.error (.ErrPAPICPCodeModify "attempting to modify contract ID"), d, []⟩
  else if d.HasChange_product then
    ⟨.error (.ErrPAPICPCodeModify "attempting to modify product ID"), d, []⟩
  else if d.HasChange_group then
    ⟨.error (.ErrPAPICPCodeModify "attempting to modify group ID"), d, []⟩
  else resourceCPCodeRead env d hist

/-- Constructor `cpCodes.NewCpCode()`: a CP code with no field set. -/
def NewCpCode : CpCode :=
  { CpcodeID := "", CpcodeName := "", ProductID := "", ProductIDs := [] }

/-- The end of `resourceCPCodeCreate`, from the search for `product` among the product IDs
of the resulting CP code on; `calls` are the interactions issued before it. -/
def resourceCPCodeCreate_finish (env : Env) (d : CPCodeData) (hist : List Call)
    (product : String) (cpCode : CpCode) (calls : List Call) : Run CPCodeData :=
  let found := cpCode.ProductIDs.any (fun id => id == product)
  if !found then
    ⟨.error (.ErrPAPICPCodeModify "attempting to modify product ID"), d, calls⟩
  else
    let d1 := { d with id := cpCode.CpcodeID }
    let r := resourceCPCodeRead env d1 (hist ++ calls)
    ⟨r.result, r.d, calls ++ r.calls⟩

/-- Handler `resourceCPCodeCreate`. When `Save` fails, the handler asserts that the error is a
`client.APIError` before returning it. -/
def resourceCPCodeCreate (env : Env) (d : CPCodeData) (hist : List Call) : Run CPCodeData :=
  let (name, ok) := d.name.assertString
  if !ok then ⟨.error (.ErrInvalidType "name"), d, []⟩ else
  let (product, ok) := d.product.assertString
  if !ok then ⟨.error (.ErrInvalidType "product"), d, []⟩ else
  let (group, ok) := d.group.assertString
  if !ok then ⟨.error (.ErrInvalidType "group"), d, []⟩ else
  let (contract, ok) := d.contract.assertString
  if !ok then ⟨.error (.ErrInvalidType "contract"), d, []⟩ else
  let c1 := Call.FindCpCode contract group name
  match env.FindCpCode hist contract group name with
  | (some cpCode, none) => resourceCPCodeCreate_finish env d hist product cpCode [c1]
  | _ =>
    let cpCode : CpCode := { NewCpCode with ProductID := product, CpcodeName := name }
    let c2 := Call.Save contract group cpCode
    match env.Save (hist ++ [c1]) contract group cpCode with
    | (_, some (.APIError rawBody)) => ⟨.error (.client (.APIError rawBody)), d, [c1, c2]⟩
    | (_, some (.other _)) => ⟨.panic, d, [c1, c2]⟩
    | (cpCode, none) => resourceCPCodeCreate_finish env d hist product cpCode [c1, c2]

/-! ## A concrete remote side -/

/-- A remote side in the manner of the test mocks: configuration 43253 is at version 7, every
update succeeds, every rule is reported with action "alert" and no condition exception, every
policy is reported with all protections switched off, and no CP code exists yet. -/
def mockEnv : Env where
  getModifiableConfigVersion := fun _ _ _ => 7
  getLatestConfigVersion := fun _ _ => 7
  validateActionAndConditionException := fun _ _ => none
  UpdateEvalRule := fun _ _ => none
  GetEvalRule := fun _ _ => (some { Action := "alert", ConditionException := none }, none)
  IsEmptyConditionException := fun r => r.ConditionException.isNone
  jsonMarshal := fun ce => some (match ce with
    | some c => c.content
    | none => "null")
  GetPolicyProtections := fun _ _ => (some ⟨false, false, false, false, false, false, false⟩, none)
  UpdatePolicyProtections := fun _ _ => none
  RenderTemplates := fun _ _ => none
  FindCpCode := fun _ _ _ _ => (none, none)
  Save := fun _ _ _ cpCode => (cpCode, none)

/-- The remote side `mockEnv` with a validator that rejects the action "none" together with a
condition exception that is not empty, and accepts everything else. -/
def strictEnv : Env :=
  { mockEnv with
    validateActionAndConditionException := fun action conditionexception =>
      if action = "none" ∧ conditionexception ≠ "" then
        some (.validation "action none with a condition exception")
      else none }

/-- The remote side `mockEnv` with a `GetEvalRule` that fails: no response, only an error. -/
def failingReadEnv : Env :=
  { mockEnv with GetEvalRule := fun _ _ => (none, some (.other "get eval rule failed")) }

/-- The remote side `mockEnv` with an `UpdatePolicyProtections` that fails. -/
def failingUpdateEnv : Env :=
  { mockEnv with UpdatePolicyProtections := fun _ _ => some (.other "update failed") }

/-- A record as an import leaves it: the identity "43253:AAAA_81230:1" and no field set. -/
def importedRule : EvalRuleData where
  id := "43253:AAAA_81230:1"
  config_id := .unset
  security_policy_id := .unset
  rule_id := .unset
  rule_action := .unset
  condition_exception := .unset

/-- The record of the scenario: config 43253, policy "AAAA_81230", rule 1, action "alert". -/
def scenarioRule : EvalRuleData where
  id := ""
  config_id := .value 43253
  security_policy_id := .value "AAAA_81230"
  rule_id := .value 1
  rule_action := .value "alert"
  condition_exception := .value ""

/-- The remote side `mockEnv` with an `UpdateEvalRule` that fails. -/
def failingEvalUpdateEnv : Env :=
  { mockEnv with UpdateEvalRule := fun _ _ => some (.other "update eval rule failed") }

/-- A CP-code record before creation: name "test cpcode", contract "ctr_1", group "grp_1",
product "prd_1", no identity yet. -/
def scenarioCPCode : CPCodeData where
  id := ""
  name := .str "test cpcode"
  contract := .str "ctr_1"
  group := .str "grp_1"
  product := .str "prd_1"
  state_contract := .str "ctr_1"
  state_group := .str "grp_1"
  state_product := .str "prd_1"

/-- The remote side `mockEnv` where every lookup finds the CP code "cpc_12345", named
"test cpcode", whose product IDs are "prd_1". -/
def reuseEnv : Env :=
  { mockEnv with
    FindCpCode := fun _ _ _ _ =>
      (some { CpcodeID := "cpc_12345", CpcodeName := "test cpcode", ProductID := "prd_1",
              ProductIDs := ["prd_1"] }, none) }

/-- The remote side `mockEnv` where `Save` fails with a `client.APIError`. -/
def apiErrorSaveEnv : Env :=
  { mockEnv with Save := fun _ _ _ cpCode => (cpCode, some (.APIError "forbidden")) }

/-- The remote side `mockEnv` where `Save` fails with an error that is no `client.APIError`,
as when the request cannot be sent. -/
def failingSaveEnv : Env :=
  { mockEnv with Save := fun _ _ _ cpCode => (cpCode, some (.other "connection refused")) }

/-! ## Facts about the library functions -/

theorem digitChar_facts : ∀ d, d < 10 →
    (digitChar d).toNat = 48 + d ∧ isDigit (digitChar d) = true ∧ digitChar d ≠ ':' ∧
      digitChar d ≠ '-' ∧ digitChar d ≠ '+' := by
  decide

theorem digitsLE_lt (fuel : Nat) : ∀ n, ∀ x ∈ digitsLE fuel n, x < 10 := by
  induction fuel with
  | zero => intro n x hx; simp [digitsLE] at hx
  | succ k ih =>
    intro n x hx
    unfold digitsLE at hx
    split at hx
    · simp at hx; omega
    · rcases List.mem_cons.mp hx with h | h
      · omega
      · exact ih _ x h

theorem digitsLE_value (fuel : Nat) : ∀ n, n < fuel →
    (digitsLE fuel n).foldr (fun d acc => d + 10 * acc) 0 = n := by
  induction fuel with
  | zero => intro n h; omega
  | succ k ih =>
    intro n h
    unfold digitsLE
    split
    · simp
    · have := ih (n / 10) (by omega)
      simp only [List.foldr_cons, this]
      omega

theorem digitsLE_ne_nil (fuel n : Nat) : digitsLE (fuel + 1) n ≠ [] := by
  unfold digitsLE
  split <;> simp

theorem parseUint_digits (l : List Nat) (h : ∀ x ∈ l, x < 10) :
    parseUint ((l.reverse).map digitChar) = l.foldr (fun d acc => d + 10 * acc) 0 := by
  induction l with
  | nil => rfl
  | cons d t ih =>
    have hd := (digitChar_facts d (h d (List.mem_cons_self _ _))).1
    have ht := ih (fun x hx => h x (List.mem_cons_of_mem _ hx))
    unfold parseUint at ht ⊢
    simp only [List.reverse_cons, List.map_append, List.map_cons, List.map_nil,
      List.foldl_append, List.foldl_cons, List.foldl_nil, List.foldr_cons, ht, hd]
    omega

/-- Parsing the decimal rendering of a natural number gives the number back. -/
theorem parseUint_formatUint (n : Nat) : parseUint (formatUint n) = n := by
  unfold formatUint
  rw [parseUint_digits _ (digitsLE_lt _ _), digitsLE_value _ _ (Nat.lt_succ_self n)]

theorem formatUint_ne_nil (n : Nat) : formatUint n ≠ [] := by
  unfold formatUint
  simp [digitsLE_ne_nil]

theorem formatUint_digit (n : Nat) : ∀ c ∈ formatUint n,
    isDigit c = true ∧ c ≠ ':' ∧ c ≠ '-' ∧ c ≠ '+' := by
  intro c hc
  unfold formatUint at hc
  rcases List.mem_map.mp hc with ⟨x, hx, rfl⟩
  exact (digitChar_facts x (digitsLE_lt _ _ x (List.mem_reverse.mp hx))).2

/-- The decimal rendering of an `int` holds no colon. -/
theorem colon_not_mem_formatInt (i : Int) : ':' ∉ formatInt i := by
  unfold formatInt
  intro h
  split at h
  · rcases List.mem_cons.mp h with h | h
    · exact absurd h (by decide)
    · exact (formatUint_digit _ _ h).2.1 rfl
  · exact (formatUint_digit _ _ h).2.1 rfl

theorem le_foldl_digits (cs : List Char) : ∀ acc : Nat,
    acc ≤ cs.foldl (fun acc c => acc * 10 + (c.toNat - 48)) acc := by
  induction cs with
  | nil => intro acc; exact Nat.le_refl _
  | cons c cs ih =>
    intro acc
    simp only [List.foldl_cons]
    exact Nat.le_trans (by omega) (ih _)

/-- On a run of digits whose value is a `uint64`, the digit loop gives that value. -/
theorem parseUintLoop_ok (s : String) (cs : List Char) : ∀ acc : Nat,
    (∀ c ∈ cs, isDigit c = true) →
    cs.foldl (fun acc c => acc * 10 + (c.toNat - 48)) acc ≤ maxUint64 →
    parseUintLoop s cs acc = .ok (cs.foldl (fun acc c => acc * 10 + (c.toNat - 48)) acc) := by
  induction cs with
  | nil => intro acc _ _; rfl
  | cons c cs ih =>
    intro acc hd hle
    simp only [List.foldl_cons] at hle ⊢
    have hc : isDigit c = true := hd c (List.mem_cons_self _ _)
    have h1 := le_foldl_digits cs (acc * 10 + (c.toNat - 48))
    have hmax : maxUint64 = 18446744073709551615 := rfl
    have hn1 : ¬ (acc * 10 + (c.toNat - 48) > maxUint64) := by omega
    have hcut : ¬ (acc ≥ maxUint64 / 10 + 1) := by omega
    simp only [parseUintLoop, hc, Bool.not_true, Bool.false_eq_true, if_false, hcut, hn1]
    exact ih _ (fun x hx => hd x (List.mem_cons_of_mem _ hx)) hle

/-- The errors of the digit loop are `ErrSyntax` and `ErrRange`. -/
theorem parseUintLoop_error (s : String) (e : Err) (cs : List Char) : ∀ acc : Nat,
    parseUintLoop s cs acc = .error e → e = .ErrSyntax s ∨ e = .ErrRange s := by
  induction cs with
  | nil => intro acc h; exact absurd h (by simp [parseUintLoop])
  | cons c cs ih =>
    intro acc h
    unfold parseUintLoop at h
    repeat' split at h
    · exact Or.inl (Except.error.inj h).symm
    · exact Or.inr (Except.error.inj h).symm
    · exact Or.inr (Except.error.inj h).symm
    · exact ih _ h

/-- The digit loop reads the decimal rendering of a `uint64` back. -/
theorem parseUintLoop_formatUint (s : String) (n : Nat) (h : n ≤ maxUint64) :
    parseUintLoop s (formatUint n) 0 = .ok n := by
  have hv : (formatUint n).foldl (fun acc c => acc * 10 + (c.toNat - 48)) 0 = n :=
    parseUint_formatUint n
  have := parseUintLoop_ok s (formatUint n) 0 (fun c hc => (formatUint_digit n c hc).1)
    (by rw [hv]; exact h)
  rw [this, hv]

/-- Function `strconv.Atoi` reads back what `%d` prints, for every Go `int`. -/
theorem Atoi_decimal (i : Int) (h : isGoInt i) : Atoi (decimal i) = .ok i := by
  obtain ⟨hlo, hhi⟩ := h
  have hmin : minInt = -9223372036854775808 := rfl
  have hmaxi : maxInt = 9223372036854775807 := rfl
  have hne := formatUint_ne_nil i.natAbs
  have hscan := parseUintLoop_formatUint (decimal i) i.natAbs
    (by have : maxUint64 = 18446744073709551615 := rfl
        omega)
  by_cases hneg : i < 0
  · have hd : (decimal i).data = '-' :: formatUint i.natAbs := by
      simp [decimal, formatInt, hneg]
    have hv : -((i.natAbs : Nat) : Int) = i := by omega
    have hb : ¬ (i.natAbs > 9223372036854775808) := by omega
    simp only [Atoi, hd, List.head?_cons, List.tail_cons, decide_True, Bool.true_or, if_true,
      hne, if_false, hscan, Bool.not_true, Bool.false_and, Bool.false_eq_true, Bool.true_and,
      decide_eq_true_eq, hb, hv]
  · have hd : (decimal i).data = formatUint i.natAbs := by
      simp [decimal, formatInt, hneg]
    have hv : ((i.natAbs : Nat) : Int) = i := by omega
    have hb : ¬ (i.natAbs ≥ 9223372036854775808) := by omega
    obtain ⟨c, t, hct⟩ := List.exists_cons_of_ne_nil hne
    have hc := formatUint_digit i.natAbs c (by rw [hct]; exact List.mem_cons_self _ _)
    have h1 : decide ((formatUint i.natAbs).head? = some '-') = false := by
      rw [hct]; simpa using hc.2.2.1
    have h2 : decide ((formatUint i.natAbs).head? = some '+') = false := by
      rw [hct]; simpa using hc.2.2.2
    simp only [Atoi, hd, h1, h2, Bool.or_self, Bool.false_eq_true, if_false, hne, hscan,
      Bool.not_false, Bool.true_and, decide_eq_true_eq, hb, Bool.false_and, hv]

theorem splitColon_of_not_mem (a : List Char) (h : ':' ∉ a) : splitColon a = [a] := by
  induction a with
  | nil => rfl
  | cons c cs ih =>
    have hc : c ≠ ':' := fun e => h (e ▸ List.mem_cons_self _ _)
    have := ih (fun m => h (List.mem_cons_of_mem _ m))
    simp [splitColon, hc, this]

theorem splitColon_append (a rest : List Char) (h : ':' ∉ a) :
    splitColon (a ++ ':' :: rest) = a :: splitColon rest := by
  induction a with
  | nil => simp [splitColon]
  | cons c cs ih =>
    have hc : c ≠ ':' := fun e => h (e ▸ List.mem_cons_self _ _)
    have := ih (fun m => h (List.mem_cons_of_mem _ m))
    simp [splitColon, hc, this]

/-- Splitting a three-part identity gives its three parts when the middle part holds no colon. -/
theorem Split_Sprintf_d_s_d (c r : Int) (p : String) (hp : ':' ∉ p.data) :
    Split (Sprintf_d_s_d c p r) = [decimal c, p, decimal r] := by
  have e : (Sprintf_d_s_d c p r).data =
      formatInt c ++ ':' :: (p.data ++ ':' :: formatInt r) := by
    simp [Sprintf_d_s_d, decimal]
  unfold Split
  rw [e, splitColon_append _ _ (colon_not_mem_formatInt c), splitColon_append _ _ hp,
    splitColon_of_not_mem _ (colon_not_mem_formatInt r)]
  rfl

/-- Splitting a two-part identity gives its two parts when the second part holds no colon. -/
theorem Split_Sprintf_d_s (c : Int) (p : String) (hp : ':' ∉ p.data) :
    Split (Sprintf_d_s c p) = [decimal c, p] := by
  have e : (Sprintf_d_s c p).data = formatInt c ++ ':' :: p.data := by
    simp [Sprintf_d_s, decimal]
  unfold Split
  rw [e, splitColon_append _ _ (colon_not_mem_formatInt c), splitColon_of_not_mem _ hp]
  rfl

/-! ## Facts about the handlers shared by several claims -/

/-- Handler `resourceEvalRuleRead` never touches the identity. -/
theorem resourceEvalRuleRead_id (env : Env) (d : EvalRuleData) (hist : List Call) :
    (resourceEvalRuleRead env d hist).d.id = d.id := by
  unfold resourceEvalRuleRead
  repeat' split
  all_goals try dsimp only
  all_goals repeat' split
  all_goals rfl

/-- Handler `resourceEvalRuleRead` issues no `UpdateEvalRule` request. -/
theorem resourceEvalRuleRead_no_update (env : Env) (d : EvalRuleData) (hist : List Call) :
    (resourceEvalRuleRead env d hist).calls.filter Call.isUpdateEvalRule = [] := by
  unfold resourceEvalRuleRead
  repeat' split
  all_goals try dsimp only
  all_goals repeat' split
  all_goals simp [Call.isUpdateEvalRule]

/-- The only error of `splitID` is the one about the format of the identity. -/
theorem splitID_error (id : String) (n : Nat) (expectedFormat : String) (e : Err)
    (h : splitID id n expectedFormat = .error e) : e = .badID id expectedFormat := by
  unfold splitID at h
  dsimp only at h
  split at h
  · exact (Except.error.inj h).symm
  · exact absurd h (by simp)

/-- The errors of `strconv.Atoi` are `ErrSyntax` and `ErrRange`. -/
theorem Atoi_error (s : String) (e : Err) (h : Atoi s = .error e) :
    e = .ErrSyntax s ∨ e = .ErrRange s := by
  unfold Atoi at h
  dsimp only at h
  repeat' split at h
  all_goals first
    | exact Or.inl (Except.error.inj h).symm
    | exact Or.inr (Except.error.inj h).symm
    | (cases h; exact parseUintLoop_error _ _ _ _ ‹parseUintLoop _ _ _ = Except.error _›)
    | exact absurd h (by simp)

/-- Handler `resourceEvalRuleRead` never returns an error of the API client. -/
theorem resourceEvalRuleRead_no_client_error (env : Env) (d : EvalRuleData) (hist : List Call)
    (err : ClientErr) : (resourceEvalRuleRead env d hist).result ≠ .error (.client err) := by
  intro h
  unfold resourceEvalRuleRead at h
  repeat' split at h
  all_goals try dsimp only at h
  all_goals repeat' split at h
  all_goals simp at h
  all_goals subst h
  all_goals first
    | exact absurd (splitID_error _ _ _ _ ‹splitID _ _ _ = Except.error _›) (by simp)
    | (rcases Atoi_error _ _ ‹Atoi _ = Except.error _› with h1 | h1 <;> simp at h1)

/-- Handler `resourceCPCodeRead` never returns an error that wraps `ErrPAPICPCodeModify`. -/
theorem resourceCPCodeRead_not_modify (env : Env) (d : CPCodeData) (hist : List Call)
    (e : Err) (h : (resourceCPCodeRead env d hist).result = .error e) :
    isErrPAPICPCodeModify e = false := by
  unfold resourceCPCodeRead at h
  repeat' split at h
  all_goals try dsimp only at h
  all_goals repeat' split at h
  all_goals simp at h
  all_goals subst h
  all_goals rfl

/-- On a record whose name, group and contract are strings, `resourceCPCodeRead` starts with
a lookup under the identity of the record, and it never saves a CP code. -/
theorem resourceCPCodeRead_calls (env : Env) (d : CPCodeData) (hist : List Call)
    (name group contract : String)
    (hn : d.name = .str name) (hg : d.group = .str group) (hct : d.contract = .str contract) :
    (resourceCPCodeRead env d hist).calls = [Call.FindCpCode contract group d.id] ∨
      (resourceCPCodeRead env d hist).calls =
        [Call.FindCpCode contract group d.id, Call.FindCpCode contract group name] := by
  unfold resourceCPCodeRead
  simp only [hn, hg, hct, Value.assertString, Bool.not_true, Bool.false_eq_true, if_false]
  repeat' split
  all_goals simp

/-- When the lookup by name finds a CP code without error, `resourceCPCodeCreate` goes on
with that code, having issued the lookup only. -/
theorem resourceCPCodeCreate_of_found (env : Env) (d : CPCodeData) (hist : List Call)
    (name product group contract : String) (cpCode : CpCode)
    (hn : d.name = .str name) (hpr : d.product = .str product) (hg : d.group = .str group)
    (hct : d.contract = .str contract)
    (hfind : env.FindCpCode hist contract group name = (some cpCode, none)) :
    resourceCPCodeCreate env d hist =
      resourceCPCodeCreate_finish env d hist product cpCode
        [Call.FindCpCode contract group name] := by
  simp [resourceCPCodeCreate, Value.assertString, hn, hpr, hg, hct, hfind]

/-- When the lookup by name finds no CP code or fails, `resourceCPCodeCreate` saves a new
CP code with the product and the name; this lemma gives its run for each way `Save` ends. -/
theorem resourceCPCodeCreate_of_not_found (env : Env) (d : CPCodeData) (hist : List Call)
    (name product group contract : String)
    (hn : d.name = .str name) (hpr : d.product = .str product) (hg : d.group = .str group)
    (hct : d.contract = .str contract)
    (hfind : ∀ found, env.FindCpCode hist contract group name ≠ (some found, none)) :
    resourceCPCodeCreate env d hist =
      match env.Save (hist ++ [Call.FindCpCode contract group name]) contract group
          { NewCpCode with ProductID := product, CpcodeName := name } with
      | (_, some (.APIError rawBody)) =>
        ⟨.error (.client (.APIError rawBody)), d,
          [Call.FindCpCode contract group name,
            Call.Save contract group
              { NewCpCode with ProductID := product, CpcodeName := name }]⟩
      | (_, some (.other _)) =>
        ⟨.panic, d,
          [Call.FindCpCode contract group name,
            Call.Save contract group
              { NewCpCode with ProductID := product, CpcodeName := name }]⟩
      | (cpCode, none) =>
        resourceCPCodeCreate_finish env d hist product cpCode
          [Call.FindCpCode contract group name,
            Call.Save contract group
              { NewCpCode with ProductID := product, CpcodeName := name }] := by
  simp only [resourceCPCodeCreate, Value.assertString, hn, hpr, hg, hct, Bool.not_true,
    Bool.false_eq_true, if_false]

/-- The end of `resourceCPCodeCreate` when `product` is among the product IDs of the CP
code: the identity of the code is assigned and Read runs on the record. -/
theorem resourceCPCodeCreate_finish_listed (env : Env) (d : CPCodeData) (hist : List Call)
    (product : String) (cpCode : CpCode) (calls : List Call)
    (h : product ∈ cpCode.ProductIDs) :
    resourceCPCodeCreate_finish env d hist product cpCode calls =
      ⟨(resourceCPCodeRead env { d with id := cpCode.CpcodeID } (hist ++ calls)).result,
        (resourceCPCodeRead env { d with id := cpCode.CpcodeID } (hist ++ calls)).d,
        calls ++ (resourceCPCodeRead env { d with id := cpCode.CpcodeID }
          (hist ++ calls)).calls⟩ := by
  have hany : cpCode.ProductIDs.any (fun id => id == product) = true := by
    simpa [List.any_eq_true] using h
  simp [resourceCPCodeCreate_finish, hany]

/-- The end of `resourceCPCodeCreate` when `product` is not among the product IDs of the CP
code: an error wrapping `ErrPAPICPCodeModify`, the record untouched, no further call. -/
theorem resourceCPCodeCreate_finish_unlisted (env : Env) (d : CPCodeData) (hist : List Call)
    (product : String) (cpCode : CpCode) (calls : List Call)
    (h : product ∉ cpCode.ProductIDs) :
    resourceCPCodeCreate_finish env d hist product cpCode calls =
      ⟨.error (.ErrPAPICPCodeModify "attempting to modify product ID"), d, calls⟩ := by
  have hany : cpCode.ProductIDs.any (fun id => id == product) = false := by
    simp only [List.any_eq_false, beq_iff_eq]
    intro x hx hxp
    exact h (hxp ▸ hx)
  simp [resourceCPCodeCreate_finish, hany]

/-! ## The claims -/

/-- C1: when `validateActionAndConditionException` accepts the action `a` and the condition
exception `e`, `resourceEvalRuleCreate` on a record with `config_id = c`,
`security_policy_id = p`, `rule_id = r` first resolves the modifiable version, then issues the
`UpdateEvalRule` request with `ConfigID = c`, `PolicyID = p`, `RuleID = r`, `Action = a`,
`JsonPayloadRaw = e` and that version, then runs Read on the record whose identity is
`decimal(c):p:decimal(r)`; this is the only `UpdateEvalRule` request among the calls, and the
record it leaves has that identity. -/
theorem C1_create_issues_one_update (env : Env) (d : EvalRuleData) (hist : List Call)
    (c r : Int) (p a e : String)
    (hc : d.config_id = .value c) (hp : d.security_policy_id = .value p)
    (hr : d.rule_id = .value r) (ha : d.rule_action = .value a)
    (he : d.condition_exception = .value e)
    (hv : env.validateActionAndConditionException a e = none) :
    (resourceEvalRuleCreate env d hist).calls =
        [Call.getModifiableConfigVersion c "evalRule",
          Call.UpdateEvalRule
            { ConfigID := c, Version := env.getModifiableConfigVersion hist c "evalRule",
              PolicyID := p, RuleID := r, Action := a, JsonPayloadRaw := e }] ++
        (resourceEvalRuleRead env { d with id := decimal c ++ ":" ++ p ++ ":" ++ decimal r }
          (hist ++ [Call.getModifiableConfigVersion c "evalRule",
            Call.UpdateEvalRule
              { ConfigID := c, Version := env.getModifiableConfigVersion hist c "evalRule",
                PolicyID := p, RuleID := r, Action := a, JsonPayloadRaw := e }])).calls ∧
      (resourceEvalRuleCreate env d hist).calls.filter Call.isUpdateEvalRule =
        [Call.UpdateEvalRule
          { ConfigID := c, Version := env.getModifiableConfigVersion hist c "evalRule",
            PolicyID := p, RuleID := r, Action := a, JsonPayloadRaw := e }] ∧
      (resourceEvalRuleCreate env d hist).d.id = decimal c ++ ":" ++ p ++ ":" ++ decimal r := by
  have hrun : resourceEvalRuleCreate env d hist =
      ⟨(resourceEvalRuleRead env { d with id := decimal c ++ ":" ++ p ++ ":" ++ decimal r }
          (hist ++ [Call.getModifiableConfigVersion c "evalRule",
            Call.UpdateEvalRule
              { ConfigID := c, Version := env.getModifiableConfigVersion hist c "evalRule",
                PolicyID := p, RuleID := r, Action := a, JsonPayloadRaw := e }])).result,
        (resourceEvalRuleRead env { d with id := decimal c ++ ":" ++ p ++ ":" ++ decimal r }
          (hist ++ [Call.getModifiableConfigVersion c "evalRule",
            Call.UpdateEvalRule
              { ConfigID := c, Version := env.getModifiableConfigVersion hist c "evalRule",
                PolicyID := p, RuleID := r, Action := a, JsonPayloadRaw := e }])).d,
        [Call.getModifiableConfigVersion c "evalRule",
          Call.UpdateEvalRule
            { ConfigID := c, Version := env.getModifiableConfigVersion hist c "evalRule",
              PolicyID := p, RuleID := r, Action := a, JsonPayloadRaw := e }] ++
        (resourceEvalRuleRead env { d with id := decimal c ++ ":" ++ p ++ ":" ++ decimal r }
          (hist ++ [Call.getModifiableConfigVersion c "evalRule",
            Call.UpdateEvalRule
              { ConfigID := c, Version := env.getModifiableConfigVersion hist c "evalRule",
                PolicyID := p, RuleID := r, Action := a, JsonPayloadRaw := e }])).calls⟩ := by
    simp [resourceEvalRuleCreate, GetIntValue, GetStringValue, GetValue, fatalUnlessNotFound,
      hc, hp, hr, ha, he, hv, Sprintf_d_s_d]
  rw [hrun]
  refine ⟨rfl, ?_, ?_⟩
  · simp [List.filter_cons, Call.isUpdateEvalRule, resourceEvalRuleRead_no_update]
  · exact resourceEvalRuleRead_id _ _ _

/-- C1, the scenario: creating the rule of config 43253, policy "AAAA_81230", rule 1 with action
"alert" sends one `UpdateEvalRule` request with action "alert" and gives the identity
"43253:AAAA_81230:1". -/
theorem C1_create_scenario :
    mockEnv.validateActionAndConditionException "alert" "" = none ∧
      (resourceEvalRuleCreate mockEnv scenarioRule []).calls.filter Call.isUpdateEvalRule =
        [Call.UpdateEvalRule
          { ConfigID := 43253, Version := 7, PolicyID := "AAAA_81230", RuleID := 1,
            Action := "alert", JsonPayloadRaw := "" }] ∧
      (resourceEvalRuleCreate mockEnv scenarioRule []).d.id = "43253:AAAA_81230:1" :=
  ⟨rfl,
    (C1_create_issues_one_update mockEnv scenarioRule [] 43253 1 "AAAA_81230" "alert" ""
      rfl rfl rfl rfl rfl rfl).2.1,
    (C1_create_issues_one_update mockEnv scenarioRule [] 43253 1 "AAAA_81230" "alert" ""
      rfl rfl rfl rfl rfl rfl).2.2.trans (by decide)⟩

/-- C2: on an identity whose three colon-separated parts are `sc`, `p`, `sr`, with `sc` and
`sr` read by `strconv.Atoi` as `c` and `r`, `resourceEvalRuleDelete` resolves the modifiable
version and issues exactly one `UpdateEvalRule` request, with `ConfigID = c`, `PolicyID = p`,
`RuleID = r`, that version, `Action = "none"` and an empty payload. The identity it leaves is
empty exactly when that call succeeds; when the call fails, its error is returned and the
record, identity included, is as before. -/
theorem C2_delete_resets_action_to_none (env : Env) (d : EvalRuleData) (hist : List Call)
    (sc p sr : String) (c r : Int)
    (hid : Split d.id = [sc, p, sr]) (hc : Atoi sc = .ok c) (hr : Atoi sr = .ok r) :
    (resourceEvalRuleDelete env d hist).calls =
        [Call.getModifiableConfigVersion c "evalRule",
          Call.UpdateEvalRule
            { ConfigID := c, Version := env.getModifiableConfigVersion hist c "evalRule",
              PolicyID := p, RuleID := r, Action := "none", JsonPayloadRaw := "" }] ∧
      ((resourceEvalRuleDelete env d hist).d.id = "" ↔
        env.UpdateEvalRule (hist ++ [Call.getModifiableConfigVersion c "evalRule"])
          { ConfigID := c, Version := env.getModifiableConfigVersion hist c "evalRule",
            PolicyID := p, RuleID := r, Action := "none", JsonPayloadRaw := "" } = none) ∧
      (env.UpdateEvalRule (hist ++ [Call.getModifiableConfigVersion c "evalRule"])
          { ConfigID := c, Version := env.getModifiableConfigVersion hist c "evalRule",
            PolicyID := p, RuleID := r, Action := "none", JsonPayloadRaw := "" } = none →
        (resourceEvalRuleDelete env d hist).result = .ok) ∧
      (∀ err, env.UpdateEvalRule (hist ++ [Call.getModifiableConfigVersion c "evalRule"])
          { ConfigID := c, Version := env.getModifiableConfigVersion hist c "evalRule",
            PolicyID := p, RuleID := r, Action := "none", JsonPayloadRaw := "" } = some err →
        (resourceEvalRuleDelete env d hist).result = .error (.client err) ∧
          (resourceEvalRuleDelete env d hist).d = d) := by
  have hne : d.id ≠ "" := by
    intro h0
    rw [h0] at hid
    have hlen : (Split "").length = 3 := by rw [hid]; rfl
    exact absurd hlen (by decide)
  cases hu : env.UpdateEvalRule (hist ++ [Call.getModifiableConfigVersion c "evalRule"])
      { ConfigID := c, Version := env.getModifiableConfigVersion hist c "evalRule",
        PolicyID := p, RuleID := r, Action := "none", JsonPayloadRaw := "" } with
  | none => simp [resourceEvalRuleDelete, splitID, hid, hc, hr, hu]
  | some err => simp [resourceEvalRuleDelete, splitID, hid, hc, hr, hu, hne]

/-- C2, the scenario: deleting the resource "43253:AAAA_81230:1" sends one `UpdateEvalRule`
request with action "none" and clears the identity. -/
theorem C2_delete_scenario :
    (Split "43253:AAAA_81230:1" = ["43253", "AAAA_81230", "1"] ∧
        Atoi "43253" = .ok 43253 ∧ Atoi "1" = .ok 1) ∧
      (resourceEvalRuleDelete mockEnv { scenarioRule with id := "43253:AAAA_81230:1" } []).calls =
        [Call.getModifiableConfigVersion 43253 "evalRule",
          Call.UpdateEvalRule
            { ConfigID := 43253, Version := 7, PolicyID := "AAAA_81230", RuleID := 1,
              Action := "none", JsonPayloadRaw := "" }] ∧
      (resourceEvalRuleDelete mockEnv { scenarioRule with id := "43253:AAAA_81230:1" } []).d.id
        = "" :=
  ⟨by decide,
    (C2_delete_resets_action_to_none mockEnv { scenarioRule with id := "43253:AAAA_81230:1" } []
      "43253" "AAAA_81230" "1" 43253 1 (by decide) (by decide) (by decide)).1,
    (C2_delete_resets_action_to_none mockEnv { scenarioRule with id := "43253:AAAA_81230:1" } []
      "43253" "AAAA_81230" "1" 43253 1 (by decide) (by decide) (by decide)).2.1.mpr rfl⟩

/-- C3: identity round trip. For Go `int`s `c` and `r` and a policy ID `p` that holds no colon,
the identity that `resourceEvalRuleCreate` builds with `"%d:%s:%d"` is split by `splitID` into
three parts; `strconv.Atoi` reads the first back as `c` and the third as `r`, and the second
is `p`. So `resourceEvalRuleRead` on a record with that identity resolves the latest version
of `c`, sends `GetEvalRule` with `ConfigID = c`, `PolicyID = p`, `RuleID = r`, and writes
`config_id = c`, `security_policy_id = p`, `rule_id = r`. -/
theorem C3_identity_round_trip (env : Env) (d : EvalRuleData) (hist : List Call)
    (c r : Int) (p : String) (hc : isGoInt c) (hr : isGoInt r) (hp : ':' ∉ p.data)
    (hid : d.id = Sprintf_d_s_d c p r) :
    splitID d.id 3 "configID:securityPolicyID:ruleID" = .ok [decimal c, p, decimal r] ∧
      Atoi (decimal c) = .ok c ∧ Atoi (decimal r) = .ok r ∧
      (resourceEvalRuleRead env d hist).calls =
        [Call.getLatestConfigVersion c,
          Call.GetEvalRule
            { ConfigID := c, Version := env.getLatestConfigVersion hist c,
              PolicyID := p, RuleID := r }] ∧
      (resourceEvalRuleRead env d hist).d.config_id = .value c ∧
      (resourceEvalRuleRead env d hist).d.security_policy_id = .value p ∧
      (resourceEvalRuleRead env d hist).d.rule_id = .value r := by
  have hs : splitID d.id 3 "configID:securityPolicyID:ruleID" =
      .ok [decimal c, p, decimal r] := by
    simp [splitID, hid, Split_Sprintf_d_s_d c r p hp]
  refine ⟨hs, Atoi_decimal c hc, Atoi_decimal r hr, ?_⟩
  unfold resourceEvalRuleRead
  simp only [hs, List.getElem?_cons_zero, List.getElem?_cons_succ, Atoi_decimal c hc,
    Atoi_decimal r hr]
  repeat' split
  all_goals simp

/-- C3 at config 43253, policy "AAAA_81230", rule 1: the identity is "43253:AAAA_81230:1" and
Read asks for exactly that rule. -/
theorem C3_identity_round_trip_scenario :
    (isGoInt 43253 ∧ isGoInt 1 ∧ ':' ∉ "AAAA_81230".data ∧
        "43253:AAAA_81230:1" = Sprintf_d_s_d 43253 "AAAA_81230" 1) ∧
      (resourceEvalRuleRead mockEnv { scenarioRule with id := "43253:AAAA_81230:1" } []).calls =
        [Call.getLatestConfigVersion 43253,
          Call.GetEvalRule
            { ConfigID := 43253, Version := 7, PolicyID := "AAAA_81230", RuleID := 1 }] :=
  ⟨by decide,
    (C3_identity_round_trip mockEnv { scenarioRule with id := "43253:AAAA_81230:1" } []
      43253 1 "AAAA_81230" (by decide) (by decide) (by decide) (by decide)).2.2.2.1⟩

/-- C4: when the identity of an eval-rule record does not split into 3 colon-separated parts,
and that of an IP/Geo protection record not into 2, each of Read, Update and Delete of the
resource returns the error of `splitID` (which names the expected format), issues no remote
interaction at all, and leaves the record, identity included, as it was. -/
theorem C4_wrong_component_count (env : Env) (hist : List Call)
    (d : EvalRuleData) (g : IPGeoProtectionData)
    (h3 : (Split d.id).length ≠ 3) (h2 : (Split g.id).length ≠ 2) :
    resourceEvalRuleRead env d hist =
        ⟨.error (.badID d.id "configID:securityPolicyID:ruleID"), d, []⟩ ∧
      resourceEvalRuleUpdate env d hist =
        ⟨.error (.badID d.id "configID:securityPolicyID:ruleID"), d, []⟩ ∧
      resourceEvalRuleDelete env d hist =
        ⟨.error (.badID d.id "configID:securityPolicyID:ruleID"), d, []⟩ ∧
      resourceIPGeoProtectionRead env g hist =
        ⟨.error (.badID g.id "configID:securityPolicyID"), g, []⟩ ∧
      resourceIPGeoProtectionUpdate env g hist =
        ⟨.error (.badID g.id "configID:securityPolicyID"), g, []⟩ ∧
      resourceIPGeoProtectionDelete env g hist =
        ⟨.error (.badID g.id "configID:securityPolicyID"), g, []⟩ := by
  have e3 : splitID d.id 3 "configID:securityPolicyID:ruleID" =
      .error (.badID d.id "configID:securityPolicyID:ruleID") := by
    simp [splitID, h3]
  have e2 : splitID g.id 2 "configID:securityPolicyID" =
      .error (.badID g.id "configID:securityPolicyID") := by
    simp [splitID, h2]
  refine ⟨?_, ?_, ?_, ?_, ?_, ?_⟩
  · simp only [resourceEvalRuleRead, e3]
  · simp only [resourceEvalRuleUpdate, e3]
  · simp only [resourceEvalRuleDelete, e3]
  · simp only [resourceIPGeoProtectionRead, e2]
  · simp only [resourceIPGeoProtectionUpdate, e2]
  · simp only [resourceIPGeoProtectionDelete, e2]

/-- C4 at the two-part identity "43253:AAAA_81230" for the eval rule and the three-part
identity "43253:AAAA_81230:1" for the IP/Geo protection: every handler fails without a call. -/
theorem C4_wrong_component_count_scenario :
    ((Split "43253:AAAA_81230").length ≠ 3 ∧ (Split "43253:AAAA_81230:1").length ≠ 2) ∧
      (resourceEvalRuleDelete mockEnv { scenarioRule with id := "43253:AAAA_81230" } []).calls
        = [] ∧
      (resourceIPGeoProtectionDelete mockEnv
        ⟨"43253:AAAA_81230:1", .value 43253, .value "AAAA_81230", .value true, .unset⟩ []).calls
        = [] :=
  ⟨by decide,
    by
      rw [(C4_wrong_component_count mockEnv [] { scenarioRule with id := "43253:AAAA_81230" }
        ⟨"43253:AAAA_81230:1", .value 43253, .value "AAAA_81230", .value true, .unset⟩
        (by decide) (by decide)).2.2.1],
    by
      rw [(C4_wrong_component_count mockEnv [] { scenarioRule with id := "43253:AAAA_81230" }
        ⟨"43253:AAAA_81230:1", .value 43253, .value "AAAA_81230", .value true, .unset⟩
        (by decide) (by decide)).2.2.2.2.2]⟩

/-- C5: `resourceCPCodeUpdate` returns an error wrapping `ErrPAPICPCodeModify` exactly when
one of `contract`, `product`, `group` differs from the stored state. In that case it has
issued no remote interaction and the record, identity included, is as it was; otherwise the
whole run is that of `resourceCPCodeRead` on the same record. -/
theorem C5_update_rejects_immutable_change (env : Env) (d : CPCodeData) (hist : List Call) :
    ((∃ e, (resourceCPCodeUpdate env d hist).result = .error e ∧
          isErrPAPICPCodeModify e = true) ↔
        (d.state_contract ≠ d.contract ∨ d.state_product ≠ d.product ∨
          d.state_group ≠ d.group)) ∧
      ((d.state_contract ≠ d.contract ∨ d.state_product ≠ d.product ∨
          d.state_group ≠ d.group) →
        (resourceCPCodeUpdate env d hist).calls = [] ∧
          (resourceCPCodeUpdate env d hist).d = d) ∧
      (¬ (d.state_contract ≠ d.contract ∨ d.state_product ≠ d.product ∨
          d.state_group ≠ d.group) →
        resourceCPCodeUpdate env d hist = resourceCPCodeRead env d hist) := by
  have hread : ∀ e, (resourceCPCodeRead env d hist).result = .error e →
      isErrPAPICPCodeModify e = false := by
    intro e he
    unfold resourceCPCodeRead at he
    repeat' split at he
    all_goals try dsimp only at he
    all_goals repeat' split at he
    all_goals simp at he
    all_goals subst he
    all_goals rfl
  by_cases h1 : d.state_contract = d.contract
  · by_cases h2 : d.state_product = d.product
    · by_cases h3 : d.state_group = d.group
      · have hu : resourceCPCodeUpdate env d hist = resourceCPCodeRead env d hist := by
          simp [resourceCPCodeUpdate, CPCodeData.HasChange_contract,
            CPCodeData.HasChange_product, CPCodeData.HasChange_group, h1, h2, h3]
        refine ⟨?_, ?_, fun _ => hu⟩
        · simp only [h1, h2, h3, ne_eq, not_true_eq_false, or_self, iff_false, not_exists,
            not_and, hu]
          intro e he
          simp [hread e he]
        · intro h
          simp [h1, h2, h3] at h
      · simp [resourceCPCodeUpdate, CPCodeData.HasChange_contract,
          CPCodeData.HasChange_product, CPCodeData.HasChange_group, h1, h2, h3,
          isErrPAPICPCodeModify]
    · simp [resourceCPCodeUpdate, CPCodeData.HasChange_contract,
        CPCodeData.HasChange_product, CPCodeData.HasChange_group, h1, h2,
        isErrPAPICPCodeModify]
  · simp [resourceCPCodeUpdate, CPCodeData.HasChange_contract, h1, isErrPAPICPCodeModify]

/-- C6, as stated, fails: with a validator that rejects action "none" with a condition
exception, both `resourceEvalRuleCreate` and `resourceEvalRuleUpdate` return the validation
error, yet the modifiable-version resolution for config 43253 has been issued by then. -/
theorem C6_resolution_precedes_validation :
    strictEnv.validateActionAndConditionException "none" "cond" =
        some (.validation "action none with a condition exception") ∧
      resourceEvalRuleCreate strictEnv
          { scenarioRule with rule_action := .value "none", condition_exception := .value "cond" }
          [] =
        ⟨.error (.validation "action none with a condition exception"),
          { scenarioRule with rule_action := .value "none", condition_exception := .value "cond" },
          [Call.getModifiableConfigVersion 43253 "evalRule"]⟩ ∧
      resourceEvalRuleUpdate strictEnv
          { scenarioRule with
            id := "43253:AAAA_81230:1", rule_action := .value "none",
            condition_exception := .value "cond" }
          [] =
        ⟨.error (.validation "action none with a condition exception"),
          { scenarioRule with
            id := "43253:AAAA_81230:1", rule_action := .value "none",
            condition_exception := .value "cond" },
          [Call.getModifiableConfigVersion 43253 "evalRule"]⟩ := by
  decide

/-- C6, amended: when `validateActionAndConditionException` rejects the pair of
`rule_action` and `condition_exception` with an error, `resourceEvalRuleCreate` (on a record
`d` with its fields set) and `resourceEvalRuleUpdate` (on a record `u` with a well-formed
identity) return that error with the record untouched, and the one remote interaction issued
by then is the modifiable-version resolution `getModifiableConfigVersion(c, "evalRule")`: no
`UpdateEvalRule` request and no Read. In both handlers the resolution comes before the
validation. -/
theorem C6_validation_error_after_resolution_only (env : Env) (hist : List Call)
    (d u : EvalRuleData) (c r cu ru : Int) (p a e sc pu sr au eu : String) (err : Err)
    (hc : d.config_id = .value c) (hp : d.security_policy_id = .value p)
    (hr : d.rule_id = .value r) (ha : d.rule_action = .value a)
    (he : d.condition_exception = .value e)
    (hv : env.validateActionAndConditionException a e = some err)
    (hid : Split u.id = [sc, pu, sr]) (hcu : Atoi sc = .ok cu) (hru : Atoi sr = .ok ru)
    (hau : u.rule_action = .value au) (heu : u.condition_exception = .value eu)
    (hvu : env.validateActionAndConditionException au eu = some err) :
    resourceEvalRuleCreate env d hist =
        ⟨.error err, d, [Call.getModifiableConfigVersion c "evalRule"]⟩ ∧
      resourceEvalRuleUpdate env u hist =
        ⟨.error err, u, [Call.getModifiableConfigVersion cu "evalRule"]⟩ := by
  constructor
  · simp [resourceEvalRuleCreate, GetIntValue, GetStringValue, GetValue, fatalUnlessNotFound,
      hc, hp, hr, ha, he, hv]
  · simp [resourceEvalRuleUpdate, splitID, hid, hcu, hru, GetStringValue, GetValue,
      fatalUnlessNotFound, hau, heu, hvu]

/-- C6, amended, at the scenario record with action "none" and condition exception "cond". -/
theorem C6_validation_error_scenario :
    (strictEnv.validateActionAndConditionException "none" "cond" =
          some (.validation "action none with a condition exception") ∧
        Split "43253:AAAA_81230:1" = ["43253", "AAAA_81230", "1"]) ∧
      (resourceEvalRuleCreate strictEnv
          { scenarioRule with rule_action := .value "none", condition_exception := .value "cond" }
          []).calls.filter Call.isUpdateEvalRule = [] :=
  ⟨by decide,
    by
      rw [(C6_validation_error_after_resolution_only strictEnv []
        { scenarioRule with rule_action := .value "none", condition_exception := .value "cond" }
        { scenarioRule with
          id := "43253:AAAA_81230:1", rule_action := .value "none",
          condition_exception := .value "cond" }
        43253 1 43253 1 "AAAA_81230" "none" "cond" "43253" "AAAA_81230" "1" "none" "cond"
        (.validation "action none with a condition exception")
        rfl rfl rfl rfl rfl (by decide) (by decide) (by decide) (by decide) rfl rfl
        (by decide)).1]
      rfl⟩

/-- C7 fails on the code: when `GetEvalRule` returns no response and an error for the
identity "43253:AAAA_81230:1", `resourceEvalRuleRead` returns no error diagnostic. It has
already written `config_id`, `security_policy_id` and `rule_id`, and it then dereferences the
absent response, which ends the handler in a panic. -/
theorem C7_read_ignores_remote_error :
    failingReadEnv.GetEvalRule [Call.getLatestConfigVersion 43253]
        { ConfigID := 43253, Version := 7, PolicyID := "AAAA_81230", RuleID := 1 } =
        (none, some (.other "get eval rule failed")) ∧
      resourceEvalRuleRead failingReadEnv importedRule [] =
        ⟨.panic,
          { importedRule with
            config_id := .value 43253, security_policy_id := .value "AAAA_81230",
            rule_id := .value 1 },
          [Call.getLatestConfigVersion 43253,
            Call.GetEvalRule
              { ConfigID := 43253, Version := 7, PolicyID := "AAAA_81230", RuleID := 1 }]⟩ := by
  decide

/-- C8, as stated, fails for a policy ID that holds a colon: with `config_id = 43253`,
`security_policy_id = "A:B"`, `enabled = true` both remote calls of
`resourceIPGeoProtectionCreate` succeed, the identity becomes "43253:A:B", and the Read it
ends with rejects that identity: Create returns an error, Read has fetched nothing, and
`enabled` is still the configured `true` although the remote side reports `false`. -/
theorem C8_policy_id_with_colon :
    resourceIPGeoProtectionCreate mockEnv
        ⟨"", .value 43253, .value "A:B", .value true, .unset⟩ [] =
      ⟨.error (.badID "43253:A:B" "configID:securityPolicyID"),
        ⟨"43253:A:B", .value 43253, .value "A:B", .value true, .unset⟩,
        [Call.getModifiableConfigVersion 43253 "ipgeoProtection",
          Call.GetPolicyProtections { ConfigID := 43253, Version := 7, PolicyID := "A:B" },
          Call.UpdatePolicyProtections
            { ConfigID := 43253, Version := 7, PolicyID := "A:B",
              ApplyAPIConstraints := false, ApplyApplicationLayerControls := false,
              ApplyBotmanControls := false, ApplyNetworkLayerControls := true,
              ApplyRateControls := false, ApplyReputationControls := false,
              ApplySlowPostControls := false }]⟩ := by
  decide

/-- C8, amended: for a Go `int` `c` and a policy ID `p` that holds no colon, when the fetch and
the update of `resourceIPGeoProtectionCreate` succeed and the fetch of the Read it ends with
succeeds with the response `fresh`, Create returns no error and leaves a record with identity
`decimal(c):p`, `config_id = c`, `security_policy_id = p` and `enabled` equal to
`fresh.ApplyNetworkLayerControls`, the value the remote side reports for
`(c, getLatestConfigVersion(c), p)`, whatever the configured `enabled` was. -/
theorem C8_create_then_read_reflects_remote (env : Env) (d : IPGeoProtectionData)
    (hist : List Call) (c : Int) (p : String) (e : Bool)
    (policyProtections fresh : GetPolicyProtectionsResponse)
    (hc : d.config_id = .value c) (hp : d.security_policy_id = .value p)
    (he : d.enabled = .value e) (hint : isGoInt c) (hcolon : ':' ∉ p.data)
    (hget : env.GetPolicyProtections
        (hist ++ [Call.getModifiableConfigVersion c "ipgeoProtection"])
        { ConfigID := c, Version := env.getModifiableConfigVersion hist c "ipgeoProtection",
          PolicyID := p } = (some policyProtections, none))
    (hupd : env.UpdatePolicyProtections
        (hist ++ [Call.getModifiableConfigVersion c "ipgeoProtection",
          Call.GetPolicyProtections
            { ConfigID := c,
              Version := env.getModifiableConfigVersion hist c "ipgeoProtection",
              PolicyID := p }])
        { ConfigID := c
          Version := env.getModifiableConfigVersion hist c "ipgeoProtection"
          PolicyID := p
          ApplyAPIConstraints := policyProtections.ApplyAPIConstraints
          ApplyApplicationLayerControls := policyProtections.ApplyApplicationLayerControls
          ApplyBotmanControls := policyProtections.ApplyBotmanControls
          ApplyNetworkLayerControls := e
          ApplyRateControls := policyProtections.ApplyRateControls
          ApplyReputationControls := policyProtections.ApplyReputationControls
          ApplySlowPostControls := policyProtections.ApplySlowPostControls } = none)
    (hread : env.GetPolicyProtections
        ((hist ++ [Call.getModifiableConfigVersion c "ipgeoProtection",
          Call.GetPolicyProtections
            { ConfigID := c,
              Version := env.getModifiableConfigVersion hist c "ipgeoProtection",
              PolicyID := p },
          Call.UpdatePolicyProtections
            { ConfigID := c
              Version := env.getModifiableConfigVersion hist c "ipgeoProtection"
              PolicyID := p
              ApplyAPIConstraints := policyProtections.ApplyAPIConstraints
              ApplyApplicationLayerControls := policyProtections.ApplyApplicationLayerControls
              ApplyBotmanControls := policyProtections.ApplyBotmanControls
              ApplyNetworkLayerControls := e
              ApplyRateControls := policyProtections.ApplyRateControls
              ApplyReputationControls := policyProtections.ApplyReputationControls
              ApplySlowPostControls := policyProtections.ApplySlowPostControls }]) ++
          [Call.getLatestConfigVersion c])
        { ConfigID := c
          Version := env.getLatestConfigVersion
            (hist ++ [Call.getModifiableConfigVersion c "ipgeoProtection",
          Call.GetPolicyProtections
            { ConfigID := c,
              Version := env.getModifiableConfigVersion hist c "ipgeoProtection",
              PolicyID := p },
          Call.UpdatePolicyProtections
            { ConfigID := c
              Version := env.getModifiableConfigVersion hist c "ipgeoProtection"
              PolicyID := p
              ApplyAPIConstraints := policyProtections.ApplyAPIConstraints
              ApplyApplicationLayerControls := policyProtections.ApplyApplicationLayerControls
              ApplyBotmanControls := policyProtections.ApplyBotmanControls
              ApplyNetworkLayerControls := e
              ApplyRateControls := policyProtections.ApplyRateControls
              ApplyReputationControls := policyProtections.ApplyReputationControls
              ApplySlowPostControls := policyProtections.ApplySlowPostControls }]) c
          PolicyID := p } = (some fresh, none)) :
    (resourceIPGeoProtectionCreate env d hist).result = .ok ∧
      (resourceIPGeoProtectionCreate env d hist).d.id = decimal c ++ ":" ++ p ∧
      (resourceIPGeoProtectionCreate env d hist).d.config_id = .value c ∧
      (resourceIPGeoProtectionCreate env d hist).d.security_policy_id = .value p ∧
      (resourceIPGeoProtectionCreate env d hist).d.enabled =
        .value fresh.ApplyNetworkLayerControls := by
  have hs : splitID (Sprintf_d_s c p) 2 "configID:securityPolicyID" = .ok [decimal c, p] := by
    simp [splitID, Split_Sprintf_d_s c p hcolon]
  have hr : ∀ (g : IPGeoProtectionData) (h : List Call), g.id = Sprintf_d_s c p →
      env.GetPolicyProtections (h ++ [Call.getLatestConfigVersion c])
        { ConfigID := c, Version := env.getLatestConfigVersion h c, PolicyID := p } =
        (some fresh, none) →
      (resourceIPGeoProtectionRead env g h).result = .ok ∧
        (resourceIPGeoProtectionRead env g h).d.id = g.id ∧
        (resourceIPGeoProtectionRead env g h).d.config_id = .value c ∧
        (resourceIPGeoProtectionRead env g h).d.security_policy_id = .value p ∧
        (resourceIPGeoProtectionRead env g h).d.enabled =
          .value fresh.ApplyNetworkLayerControls := by
    intro g h hg hfresh
    unfold resourceIPGeoProtectionRead
    simp only [hg, hs, List.getElem?_cons_zero, List.getElem?_cons_succ, Atoi_decimal c hint,
      hfresh]
    split <;> simp
  simp only [resourceIPGeoProtectionCreate, GetIntValue, GetStringValue, GetBoolValue, GetValue,
    fatalUnlessNotFound, hc, hp, he, hget, hupd]
  exact hr _ _ rfl hread

/-- C8, amended, at config 43253, policy "AAAA_81230" and `enabled = true`: the record Create
leaves has identity "43253:AAAA_81230" and `enabled = false`, as the remote side reports. -/
theorem C8_create_then_read_scenario :
    (isGoInt 43253 ∧ ':' ∉ "AAAA_81230".data) ∧
      (resourceIPGeoProtectionCreate mockEnv
        ⟨"", .value 43253, .value "AAAA_81230", .value true, .unset⟩ []).d.id =
        "43253:AAAA_81230" ∧
      (resourceIPGeoProtectionCreate mockEnv
        ⟨"", .value 43253, .value "AAAA_81230", .value true, .unset⟩ []).d.enabled =
        .value false :=
  ⟨by decide,
    (C8_create_then_read_reflects_remote mockEnv
      ⟨"", .value 43253, .value "AAAA_81230", .value true, .unset⟩ [] 43253 "AAAA_81230" true
      ⟨false, false, false, false, false, false, false⟩
      ⟨false, false, false, false, false, false, false⟩
      rfl rfl rfl (by decide) (by decide) rfl rfl rfl).2.1.trans (by decide),
    (C8_create_then_read_reflects_remote mockEnv
      ⟨"", .value 43253, .value "AAAA_81230", .value true, .unset⟩ [] 43253 "AAAA_81230" true
      ⟨false, false, false, false, false, false, false⟩
      ⟨false, false, false, false, false, false, false⟩
      rfl rfl rfl (by decide) (by decide) rfl rfl rfl).2.2.2.2⟩

/-- C9, as stated, fails: the remote side reports the rule with no condition exception, and
after a successful `resourceEvalRuleRead` the field `condition_exception` still holds the
value "stale" it had before. -/
theorem C9_empty_condition_exception_kept :
    mockEnv.GetEvalRule [Call.getLatestConfigVersion 43253]
        { ConfigID := 43253, Version := 7, PolicyID := "AAAA_81230", RuleID := 1 } =
        (some { Action := "alert", ConditionException := none }, none) ∧
      (resourceEvalRuleRead mockEnv
        { importedRule with condition_exception := .value "stale" } []).result = .ok ∧
      (resourceEvalRuleRead mockEnv
        { importedRule with condition_exception := .value "stale" } []).d.condition_exception =
        .value "stale" := by
  decide

/-- C9, amended: for every successful `resourceEvalRuleRead` on a well-formed identity, the
remote side gave a response; `config_id`, `security_policy_id` and `rule_id` are written from
the request and `rule_action` from the response. When the response's condition exception is
not empty, `condition_exception` is written with its JSON text; when it is empty,
`condition_exception` is not written and keeps the value it had. -/
theorem C9_read_writes_fields (env : Env) (d : EvalRuleData) (hist : List Call)
    (sc p sr : String) (c r : Int)
    (hid : Split d.id = [sc, p, sr]) (hc : Atoi sc = .ok c) (hr : Atoi sr = .ok r)
    (hok : (resourceEvalRuleRead env d hist).result = .ok) :
    ∃ evalrule,
      (env.GetEvalRule (hist ++ [Call.getLatestConfigVersion c])
          { ConfigID := c, Version := env.getLatestConfigVersion hist c,
            PolicyID := p, RuleID := r }).1 = some evalrule ∧
        (resourceEvalRuleRead env d hist).d.id = d.id ∧
        (resourceEvalRuleRead env d hist).d.config_id = .value c ∧
        (resourceEvalRuleRead env d hist).d.security_policy_id = .value p ∧
        (resourceEvalRuleRead env d hist).d.rule_id = .value r ∧
        (resourceEvalRuleRead env d hist).d.rule_action = .value evalrule.Action ∧
        (env.IsEmptyConditionException evalrule = false →
          ∃ jsonBody, env.jsonMarshal evalrule.ConditionException = some jsonBody ∧
            (resourceEvalRuleRead env d hist).d.condition_exception = .value jsonBody) ∧
        (env.IsEmptyConditionException evalrule = true →
          (resourceEvalRuleRead env d hist).d.condition_exception = d.condition_exception) := by
  cases hg : (env.GetEvalRule (hist ++ [Call.getLatestConfigVersion c])
      { ConfigID := c, Version := env.getLatestConfigVersion hist c,
        PolicyID := p, RuleID := r }).1 with
  | none =>
    simp [resourceEvalRuleRead, splitID, hid, hc, hr, hg] at hok
  | some evalrule =>
    refine ⟨evalrule, rfl, ?_⟩
    cases hemp : env.IsEmptyConditionException evalrule with
    | true =>
      simp [resourceEvalRuleRead, splitID, hid, hc, hr, hg, hemp]
    | false =>
      cases hm : env.jsonMarshal evalrule.ConditionException with
      | none =>
        simp [resourceEvalRuleRead, splitID, hid, hc, hr, hg, hemp, hm] at hok
      | some jsonBody =>
        simp [resourceEvalRuleRead, splitID, hid, hc, hr, hg, hemp, hm]

/-- C9, amended, at the identity "43253:AAAA_81230:1": Read writes the four fields and leaves
`condition_exception` alone, since the remote rule has no condition exception. -/
theorem C9_read_writes_fields_scenario :
    (Split importedRule.id = ["43253", "AAAA_81230", "1"] ∧ Atoi "43253" = .ok 43253 ∧
        Atoi "1" = .ok 1 ∧ (resourceEvalRuleRead mockEnv importedRule []).result = .ok) ∧
      ∃ evalrule,
        (mockEnv.GetEvalRule ([] ++ [Call.getLatestConfigVersion 43253])
            { ConfigID := 43253, Version := mockEnv.getLatestConfigVersion [] 43253,
              PolicyID := "AAAA_81230", RuleID := 1 }).1 = some evalrule ∧
          (resourceEvalRuleRead mockEnv importedRule []).d.rule_action =
            .value evalrule.Action :=
  ⟨by decide,
    (C9_read_writes_fields mockEnv importedRule [] "43253" "AAAA_81230" "1" 43253 1
      (by decide) (by decide) (by decide) (by decide)).imp
      (fun _ h => ⟨h.1, h.2.2.2.2.2.1⟩)⟩

/-- C10, as stated, fails in its last part: when the `UpdatePolicyProtections` call of
`resourceIPGeoProtectionDelete` fails, the request has been issued with
`ApplyNetworkLayerControls = false`, but the handler returns the error and the identity
"43253:AAAA_81230" is not cleared. -/
theorem C10_delete_keeps_identity_on_failure :
    resourceIPGeoProtectionDelete failingUpdateEnv
        ⟨"43253:AAAA_81230", .value 43253, .value "AAAA_81230", .value true, .unset⟩ [] =
      ⟨.error (.client (.other "update failed")),
        ⟨"43253:AAAA_81230", .value 43253, .value "AAAA_81230", .value true, .unset⟩,
        [Call.getModifiableConfigVersion 43253 "ipgeoProtection",
          Call.GetPolicyProtections
            { ConfigID := 43253, Version := 7, PolicyID := "AAAA_81230" },
          Call.UpdatePolicyProtections
            { ConfigID := 43253, Version := 7, PolicyID := "AAAA_81230",
              ApplyAPIConstraints := false, ApplyApplicationLayerControls := false,
              ApplyBotmanControls := false, ApplyNetworkLayerControls := false,
              ApplyRateControls := false, ApplyReputationControls := false,
              ApplySlowPostControls := false }]⟩ := by
  decide

/-- C10, amended: in each of the IP/Geo protection handlers, for every response that
`GetPolicyProtections` gives, the first three remote interactions are the modifiable-version
resolution, the fetch, and an `UpdatePolicyProtections` request with the same `ConfigID`,
`PolicyID` and `Version` as the fetch and the six other flags copied from the response.
Create runs on any record `d` with `config_id = c`, `security_policy_id = p` (any string) and
`enabled = e`, and sets `ApplyNetworkLayerControls` to `e`. Update runs on any record `u`
whose identity has the two parts `scu`, `pu`, with `scu` read as `cu`, and `enabled = eu`, and
sets it to `eu`. Delete runs on any record `w` whose identity has the two parts `scw`, `pw`,
with `scw` read as `cw`, whatever its fields, and sets it to `false`. Delete then clears the
identity, and nothing else, when that update succeeds; when it fails, Delete returns the
error and the record, identity included, is as before. -/
theorem C10_update_request_frame (env : Env) (hist : List Call)
    (d u w : IPGeoProtectionData) (c cu cw : Int) (p scu pu scw pw : String) (e eu : Bool)
    (hc : d.config_id = .value c) (hp : d.security_policy_id = .value p)
    (he : d.enabled = .value e)
    (hidu : Split u.id = [scu, pu]) (hscu : Atoi scu = .ok cu) (hue : u.enabled = .value eu)
    (hidw : Split w.id = [scw, pw]) (hscw : Atoi scw = .ok cw) :
    (∀ policyProtections,
        env.GetPolicyProtections (hist ++ [Call.getModifiableConfigVersion c "ipgeoProtection"])
            { ConfigID := c, Version := env.getModifiableConfigVersion hist c "ipgeoProtection",
              PolicyID := p } = (some policyProtections, none) →
          (resourceIPGeoProtectionCreate env d hist).calls.take 3 =
            [Call.getModifiableConfigVersion c "ipgeoProtection",
              Call.GetPolicyProtections
                { ConfigID := c, Version := env.getModifiableConfigVersion hist c "ipgeoProtection",
                  PolicyID := p },
              Call.UpdatePolicyProtections
                { ConfigID := c
                  Version := env.getModifiableConfigVersion hist c "ipgeoProtection"
                  PolicyID := p
                  ApplyAPIConstraints := policyProtections.ApplyAPIConstraints
                  ApplyApplicationLayerControls := policyProtections.ApplyApplicationLayerControls
                  ApplyBotmanControls := policyProtections.ApplyBotmanControls
                  ApplyNetworkLayerControls := e
                  ApplyRateControls := policyProtections.ApplyRateControls
                  ApplyReputationControls := policyProtections.ApplyReputationControls
                  ApplySlowPostControls := policyProtections.ApplySlowPostControls }]) ∧
      (∀ policyProtections,
        env.GetPolicyProtections (hist ++ [Call.getModifiableConfigVersion cu "networkProtection"])
            { ConfigID := cu, Version := env.getModifiableConfigVersion hist cu "networkProtection",
              PolicyID := pu } = (some policyProtections, none) →
          (resourceIPGeoProtectionUpdate env u hist).calls.take 3 =
            [Call.getModifiableConfigVersion cu "networkProtection",
              Call.GetPolicyProtections
                { ConfigID := cu, Version := env.getModifiableConfigVersion hist cu "networkProtection",
                  PolicyID := pu },
              Call.UpdatePolicyProtections
                { ConfigID := cu
                  Version := env.getModifiableConfigVersion hist cu "networkProtection"
                  PolicyID := pu
                  ApplyAPIConstraints := policyProtections.ApplyAPIConstraints
                  ApplyApplicationLayerControls := policyProtections.ApplyApplicationLayerControls
                  ApplyBotmanControls := policyProtections.ApplyBotmanControls
                  ApplyNetworkLayerControls := eu
                  ApplyRateControls := policyProtections.ApplyRateControls
                  ApplyReputationControls := policyProtections.ApplyReputationControls
                  ApplySlowPostControls := policyProtections.ApplySlowPostControls }]) ∧
      (∀ policyProtections,
        env.GetPolicyProtections (hist ++ [Call.getModifiableConfigVersion cw "ipgeoProtection"])
            { ConfigID := cw, Version := env.getModifiableConfigVersion hist cw "ipgeoProtection",
              PolicyID := pw } = (some policyProtections, none) →
          (resourceIPGeoProtectionDelete env w hist).calls.take 3 =
            [Call.getModifiableConfigVersion cw "ipgeoProtection",
              Call.GetPolicyProtections
                { ConfigID := cw, Version := env.getModifiableConfigVersion hist cw "ipgeoProtection",
                  PolicyID := pw },
              Call.UpdatePolicyProtections
                { ConfigID := cw
                  Version := env.getModifiableConfigVersion hist cw "ipgeoProtection"
                  PolicyID := pw
                  ApplyAPIConstraints := policyProtections.ApplyAPIConstraints
                  ApplyApplicationLayerControls := policyProtections.ApplyApplicationLayerControls
                  ApplyBotmanControls := policyProtections.ApplyBotmanControls
                  ApplyNetworkLayerControls := false
                  ApplyRateControls := policyProtections.ApplyRateControls
                  ApplyReputationControls := policyProtections.ApplyReputationControls
                  ApplySlowPostControls := policyProtections.ApplySlowPostControls }] ∧
            (env.UpdatePolicyProtections
                (hist ++ [Call.getModifiableConfigVersion cw "ipgeoProtection",
                  Call.GetPolicyProtections
                    { ConfigID := cw, Version := env.getModifiableConfigVersion hist cw "ipgeoProtection",
                      PolicyID := pw }])
                { ConfigID := cw
                  Version := env.getModifiableConfigVersion hist cw "ipgeoProtection"
                  PolicyID := pw
                  ApplyAPIConstraints := policyProtections.ApplyAPIConstraints
                  ApplyApplicationLayerControls := policyProtections.ApplyApplicationLayerControls
                  ApplyBotmanControls := policyProtections.ApplyBotmanControls
                  ApplyNetworkLayerControls := false
                  ApplyRateControls := policyProtections.ApplyRateControls
                  ApplyReputationControls := policyProtections.ApplyReputationControls
                  ApplySlowPostControls := policyProtections.ApplySlowPostControls } = none →
              resourceIPGeoProtectionDelete env w hist =
                ⟨.ok, { w with id := "" },
                  (resourceIPGeoProtectionDelete env w hist).calls⟩) ∧
            (∀ err,
              env.UpdatePolicyProtections
                (hist ++ [Call.getModifiableConfigVersion cw "ipgeoProtection",
                  Call.GetPolicyProtections
                    { ConfigID := cw, Version := env.getModifiableConfigVersion hist cw "ipgeoProtection",
                      PolicyID := pw }])
                { ConfigID := cw
                  Version := env.getModifiableConfigVersion hist cw "ipgeoProtection"
                  PolicyID := pw
                  ApplyAPIConstraints := policyProtections.ApplyAPIConstraints
                  ApplyApplicationLayerControls := policyProtections.ApplyApplicationLayerControls
                  ApplyBotmanControls := policyProtections.ApplyBotmanControls
                  ApplyNetworkLayerControls := false
                  ApplyRateControls := policyProtections.ApplyRateControls
                  ApplyReputationControls := policyProtections.ApplyReputationControls
                  ApplySlowPostControls := policyProtections.ApplySlowPostControls } = some err →
              resourceIPGeoProtectionDelete env w hist =
                ⟨.error (.client err), w,
                  (resourceIPGeoProtectionDelete env w hist).calls⟩)) := by
  have hsu : splitID u.id 2 "configID:securityPolicyID" = .ok [scu, pu] := by
    simp [splitID, hidu]
  have hsw : splitID w.id 2 "configID:securityPolicyID" = .ok [scw, pw] := by
    simp [splitID, hidw]
  refine ⟨?_, ?_, ?_⟩
  · intro policyProtections hget
    simp only [resourceIPGeoProtectionCreate, GetIntValue, GetStringValue, GetBoolValue,
      GetValue, fatalUnlessNotFound, hc, hp, he, hget]
    split <;> simp
  · intro policyProtections hget
    simp only [resourceIPGeoProtectionUpdate, hsu, List.getElem?_cons_zero,
      List.getElem?_cons_succ, hscu, GetBoolValue, GetValue, fatalUnlessNotFound, hue, hget]
    split <;> simp
  · intro policyProtections hget
    simp only [resourceIPGeoProtectionDelete, hsw, List.getElem?_cons_zero,
      List.getElem?_cons_succ, hscw, hget]
    refine ⟨?_, ?_, ?_⟩
    · split <;> simp
    · intro h; simp [h]
    · intro err h; simp [h]

/-- C10, amended, at three records: Create with the policy ID "A:B", which holds a colon,
sends the update with the six flags of the response and `ApplyNetworkLayerControls = true`;
Delete on the record "43253:AAAA_81230", none of whose fields is set, sends the update with
`ApplyNetworkLayerControls = false` and, the update succeeding, clears the identity. -/
theorem C10_update_request_frame_scenario :
    (Split "43253:AAAA_81230" = ["43253", "AAAA_81230"] ∧ Atoi "43253" = .ok 43253) ∧
      (resourceIPGeoProtectionCreate mockEnv
          ⟨"", .value 43253, .value "A:B", .value true, .unset⟩ []).calls.take 3 =
        [Call.getModifiableConfigVersion 43253 "ipgeoProtection",
          Call.GetPolicyProtections { ConfigID := 43253, Version := 7, PolicyID := "A:B" },
          Call.UpdatePolicyProtections
            { ConfigID := 43253, Version := 7, PolicyID := "A:B",
              ApplyAPIConstraints := false, ApplyApplicationLayerControls := false,
              ApplyBotmanControls := false, ApplyNetworkLayerControls := true,
              ApplyRateControls := false, ApplyReputationControls := false,
              ApplySlowPostControls := false }] ∧
      resourceIPGeoProtectionDelete mockEnv
          ⟨"43253:AAAA_81230", .unset, .unset, .unset, .unset⟩ [] =
        ⟨.ok, ⟨"", .unset, .unset, .unset, .unset⟩,
          (resourceIPGeoProtectionDelete mockEnv
            ⟨"43253:AAAA_81230", .unset, .unset, .unset, .unset⟩ []).calls⟩ :=
  ⟨by decide,
    (C10_update_request_frame mockEnv []
      ⟨"", .value 43253, .value "A:B", .value true, .unset⟩
      ⟨"43253:AAAA_81230", .value 43253, .value "AAAA_81230", .value true, .unset⟩
      ⟨"43253:AAAA_81230", .unset, .unset, .unset, .unset⟩
      43253 43253 43253 "A:B" "43253" "AAAA_81230" "43253" "AAAA_81230" true true
      rfl rfl rfl (by decide) (by decide) rfl (by decide) (by decide)).1
      ⟨false, false, false, false, false, false, false⟩ rfl,
    ((C10_update_request_frame mockEnv []
      ⟨"", .value 43253, .value "A:B", .value true, .unset⟩
      ⟨"43253:AAAA_81230", .value 43253, .value "AAAA_81230", .value true, .unset⟩
      ⟨"43253:AAAA_81230", .unset, .unset, .unset, .unset⟩
      43253 43253 43253 "A:B" "43253" "AAAA_81230" "43253" "AAAA_81230" true true
      rfl rfl rfl (by decide) (by decide) rfl (by decide) (by decide)).2.2
      ⟨false, false, false, false, false, false, false⟩ rfl).2.1 rfl⟩

/-- C11 fails on the code in its last part. With no CP code found, `resourceCPCodeCreate`
saves a new one built from the product "prd_1" and the name "test cpcode". When `Save` fails
with an error that is no `client.APIError`, the handler does not return that error: the type
assertion `err.(client.APIError)` in its logging line fails and the handler ends in a panic.
The rest of the claim holds on the same record: a `client.APIError` from `Save` is returned
with no identity assigned, and when the lookup finds the CP code "cpc_12345" nothing is saved
and that code's ID becomes the identity. -/
theorem C11_save_failure_not_returned :
    failingSaveEnv.FindCpCode [] "ctr_1" "grp_1" "test cpcode" = (none, none) ∧
      failingSaveEnv.Save [Call.FindCpCode "ctr_1" "grp_1" "test cpcode"] "ctr_1" "grp_1"
          { CpcodeID := "", CpcodeName := "test cpcode", ProductID := "prd_1",
            ProductIDs := [] } =
        ({ CpcodeID := "", CpcodeName := "test cpcode", ProductID := "prd_1",
            ProductIDs := [] }, some (.other "connection refused")) ∧
      resourceCPCodeCreate failingSaveEnv scenarioCPCode [] =
        ⟨.panic, scenarioCPCode,
          [Call.FindCpCode "ctr_1" "grp_1" "test cpcode",
            Call.Save "ctr_1" "grp_1"
              { CpcodeID := "", CpcodeName := "test cpcode", ProductID := "prd_1",
                ProductIDs := [] }]⟩ ∧
      resourceCPCodeCreate apiErrorSaveEnv scenarioCPCode [] =
        ⟨.error (.client (.APIError "forbidden")), scenarioCPCode,
          [Call.FindCpCode "ctr_1" "grp_1" "test cpcode",
            Call.Save "ctr_1" "grp_1"
              { CpcodeID := "", CpcodeName := "test cpcode", ProductID := "prd_1",
                ProductIDs := [] }]⟩ ∧
      resourceCPCodeCreate reuseEnv scenarioCPCode [] =
        ⟨.ok, { scenarioCPCode with id := "cpc_12345" },
          [Call.FindCpCode "ctr_1" "grp_1" "test cpcode",
            Call.FindCpCode "ctr_1" "grp_1" "cpc_12345"]⟩ := by
  decide

/-- C12: when the fields of the record are set and the validator accepts the pair, and the
`UpdateEvalRule` call of `resourceEvalRuleCreate` returns the error `err`, Create does not
return `err`: it goes on to assign the identity `decimal(c):p:decimal(r)` and its result,
record and further calls are those of `resourceEvalRuleRead` on the record with that
identity. The record it leaves has that identity, so the resource counts as created. -/
theorem C12_create_ignores_update_error (env : Env) (d : EvalRuleData) (hist : List Call)
    (c r : Int) (p a e : String) (err : ClientErr)
    (hc : d.config_id = .value c) (hp : d.security_policy_id = .value p)
    (hr : d.rule_id = .value r) (ha : d.rule_action = .value a)
    (he : d.condition_exception = .value e)
    (hv : env.validateActionAndConditionException a e = none)
    (_herr : env.UpdateEvalRule (hist ++ [Call.getModifiableConfigVersion c "evalRule"])
        { ConfigID := c, Version := env.getModifiableConfigVersion hist c "evalRule",
          PolicyID := p, RuleID := r, Action := a, JsonPayloadRaw := e } = some err) :
    (resourceEvalRuleCreate env d hist).result ≠ .error (.client err) ∧
      (resourceEvalRuleCreate env d hist).result =
        (resourceEvalRuleRead env { d with id := decimal c ++ ":" ++ p ++ ":" ++ decimal r }
          (hist ++ [Call.getModifiableConfigVersion c "evalRule",
            Call.UpdateEvalRule
              { ConfigID := c, Version := env.getModifiableConfigVersion hist c "evalRule",
                PolicyID := p, RuleID := r, Action := a, JsonPayloadRaw := e }])).result ∧
      (resourceEvalRuleCreate env d hist).d =
        (resourceEvalRuleRead env { d with id := decimal c ++ ":" ++ p ++ ":" ++ decimal r }
          (hist ++ [Call.getModifiableConfigVersion c "evalRule",
            Call.UpdateEvalRule
              { ConfigID := c, Version := env.getModifiableConfigVersion hist c "evalRule",
                PolicyID := p, RuleID := r, Action := a, JsonPayloadRaw := e }])).d ∧
      (resourceEvalRuleCreate env d hist).d.id = decimal c ++ ":" ++ p ++ ":" ++ decimal r := by
  have hrun : resourceEvalRuleCreate env d hist =
      ⟨(resourceEvalRuleRead env { d with id := decimal c ++ ":" ++ p ++ ":" ++ decimal r }
          (hist ++ [Call.getModifiableConfigVersion c "evalRule",
            Call.UpdateEvalRule
              { ConfigID := c, Version := env.getModifiableConfigVersion hist c "evalRule",
                PolicyID := p, RuleID := r, Action := a, JsonPayloadRaw := e }])).result,
        (resourceEvalRuleRead env { d with id := decimal c ++ ":" ++ p ++ ":" ++ decimal r }
          (hist ++ [Call.getModifiableConfigVersion c "evalRule",
            Call.UpdateEvalRule
              { ConfigID := c, Version := env.getModifiableConfigVersion hist c "evalRule",
                PolicyID := p, RuleID := r, Action := a, JsonPayloadRaw := e }])).d,
        [Call.getModifiableConfigVersion c "evalRule",
          Call.UpdateEvalRule
            { ConfigID := c, Version := env.getModifiableConfigVersion hist c "evalRule",
              PolicyID := p, RuleID := r, Action := a, JsonPayloadRaw := e }] ++
        (resourceEvalRuleRead env { d with id := decimal c ++ ":" ++ p ++ ":" ++ decimal r }
          (hist ++ [Call.getModifiableConfigVersion c "evalRule",
            Call.UpdateEvalRule
              { ConfigID := c, Version := env.getModifiableConfigVersion hist c "evalRule",
                PolicyID := p, RuleID := r, Action := a, JsonPayloadRaw := e }])).calls⟩ := by
    simp [resourceEvalRuleCreate, GetIntValue, GetStringValue, GetValue, fatalUnlessNotFound,
      hc, hp, hr, ha, he, hv, Sprintf_d_s_d]
  rw [hrun]
  refine ⟨resourceEvalRuleRead_no_client_error _ _ _ _, rfl, rfl, ?_⟩
  exact resourceEvalRuleRead_id _ _ _

/-- C12 at the scenario record with a failing `UpdateEvalRule`: Create still ends without an
error and leaves the identity "43253:AAAA_81230:1". -/
theorem C12_create_ignores_update_error_scenario :
    failingEvalUpdateEnv.UpdateEvalRule [Call.getModifiableConfigVersion 43253 "evalRule"]
        { ConfigID := 43253, Version := 7, PolicyID := "AAAA_81230", RuleID := 1,
          Action := "alert", JsonPayloadRaw := "" } = some (.other "update eval rule failed") ∧
      (resourceEvalRuleCreate failingEvalUpdateEnv scenarioRule []).result = .ok ∧
      (resourceEvalRuleCreate failingEvalUpdateEnv scenarioRule []).d.id =
        "43253:AAAA_81230:1" :=
  ⟨rfl,
    (C12_create_ignores_update_error failingEvalUpdateEnv scenarioRule [] 43253 1 "AAAA_81230"
      "alert" "" (.other "update eval rule failed") rfl rfl rfl rfl rfl rfl rfl).2.1.trans
      (by decide),
    (C12_create_ignores_update_error failingEvalUpdateEnv scenarioRule [] 43253 1 "AAAA_81230"
      "alert" "" (.other "update eval rule failed") rfl rfl rfl rfl rfl rfl rfl).2.2.2.trans
      (by decide)⟩

/-- C13: let `cpCode` be the CP code `resourceCPCodeCreate` ends up with, either the one the
lookup by name found, or the one `Save` left after a lookup that found none, and let `calls`
be the interactions issued to get it. If `product` is among `cpCode.ProductIDs`, Create
assigns the identity `cpCode.CpcodeID` and its result, record and further calls are those of
Read on the record with that identity. If it is not (as for a saved code with no product ID
at all), Create returns an error wrapping `ErrPAPICPCodeModify`, leaves the record and its
identity as they were, and issues nothing after `calls`: Read is not invoked. So Read's
lookup under the assigned identity follows `calls` exactly when the product is listed, and
the `ErrPAPICPCodeModify` error is returned exactly when it is not. -/
theorem C13_identity_iff_product_listed (env : Env) (d : CPCodeData) (hist : List Call)
    (name product group contract : String) (cpCode : CpCode) (calls : List Call)
    (hn : d.name = .str name) (hpr : d.product = .str product) (hg : d.group = .str group)
    (hct : d.contract = .str contract)
    (hres :
      (env.FindCpCode hist contract group name = (some cpCode, none) ∧
          calls = [Call.FindCpCode contract group name]) ∨
        ((∀ found, env.FindCpCode hist contract group name ≠ (some found, none)) ∧
          env.Save (hist ++ [Call.FindCpCode contract group name]) contract group
              { NewCpCode with ProductID := product, CpcodeName := name } = (cpCode, none) ∧
          calls = [Call.FindCpCode contract group name,
            Call.Save contract group
              { NewCpCode with ProductID := product, CpcodeName := name }])) :
    (product ∈ cpCode.ProductIDs →
        resourceCPCodeCreate env d hist =
          ⟨(resourceCPCodeRead env { d with id := cpCode.CpcodeID } (hist ++ calls)).result,
            (resourceCPCodeRead env { d with id := cpCode.CpcodeID } (hist ++ calls)).d,
            calls ++ (resourceCPCodeRead env { d with id := cpCode.CpcodeID }
              (hist ++ calls)).calls⟩) ∧
      (product ∉ cpCode.ProductIDs →
        resourceCPCodeCreate env d hist =
          ⟨.error (.ErrPAPICPCodeModify "attempting to modify product ID"), d, calls⟩) ∧
      ((∃ rest, (resourceCPCodeCreate env d hist).calls =
            calls ++ Call.FindCpCode contract group cpCode.CpcodeID :: rest) ↔
        product ∈ cpCode.ProductIDs) ∧
      ((∃ e, (resourceCPCodeCreate env d hist).result = .error e ∧
            isErrPAPICPCodeModify e = true) ↔
        product ∉ cpCode.ProductIDs) := by
  have hfin : resourceCPCodeCreate env d hist =
      resourceCPCodeCreate_finish env d hist product cpCode calls := by
    rcases hres with ⟨hfind, rfl⟩ | ⟨hfind, hsave, rfl⟩
    · exact resourceCPCodeCreate_of_found env d hist name product group contract cpCode
        hn hpr hg hct hfind
    · rw [resourceCPCodeCreate_of_not_found env d hist name product group contract
        hn hpr hg hct hfind, hsave]
  by_cases hmem : product ∈ cpCode.ProductIDs
  · have hrun := resourceCPCodeCreate_finish_listed env d hist product cpCode calls hmem
    rw [hfin, hrun]
    refine ⟨fun _ => rfl, fun h => absurd hmem h, ?_, ?_⟩
    · simp only [hmem, iff_true]
      rcases resourceCPCodeRead_calls env { d with id := cpCode.CpcodeID } (hist ++ calls)
        name group contract hn hg hct with h | h
      · exact ⟨[], by rw [h]⟩
      · exact ⟨[Call.FindCpCode contract group name], by rw [h]⟩
    · simp only [hmem, not_true_eq_false, iff_false, not_exists, not_and]
      intro e he
      simp [resourceCPCodeRead_not_modify env _ _ e he]
  · have hrun := resourceCPCodeCreate_finish_unlisted env d hist product cpCode calls hmem
    rw [hfin, hrun]
    refine ⟨fun h => absurd h hmem, fun _ => rfl, ?_, ?_⟩
    · simp [hmem]
    · simp [hmem, isErrPAPICPCodeModify]

/-- C13 where no CP code exists yet and `Save` leaves a code without any product ID: Create
returns the `ErrPAPICPCodeModify` error, the identity stays empty and Read is not run. -/
theorem C13_saved_code_without_products :
    ((∀ found, mockEnv.FindCpCode [] "ctr_1" "grp_1" "test cpcode" ≠ (some found, none)) ∧
        mockEnv.Save [Call.FindCpCode "ctr_1" "grp_1" "test cpcode"] "ctr_1" "grp_1"
            { NewCpCode with ProductID := "prd_1", CpcodeName := "test cpcode" } =
          ({ NewCpCode with ProductID := "prd_1", CpcodeName := "test cpcode" }, none) ∧
        "prd_1" ∉ ({ NewCpCode with ProductID := "prd_1", CpcodeName := "test cpcode" } :
          CpCode).ProductIDs) ∧
      resourceCPCodeCreate mockEnv scenarioCPCode [] =
        ⟨.error (.ErrPAPICPCodeModify "attempting to modify product ID"), scenarioCPCode,
          [Call.FindCpCode "ctr_1" "grp_1" "test cpcode",
            Call.Save "ctr_1" "grp_1"
              { NewCpCode with ProductID := "prd_1", CpcodeName := "test cpcode" }]⟩ :=
  ⟨⟨fun _ h => by simp [mockEnv] at h, rfl, by simp [NewCpCode]⟩,
    (C13_identity_iff_product_listed mockEnv scenarioCPCode [] "test cpcode" "prd_1" "grp_1"
      "ctr_1" { NewCpCode with ProductID := "prd_1", CpcodeName := "test cpcode" }
      [Call.FindCpCode "ctr_1" "grp_1" "test cpcode",
        Call.Save "ctr_1" "grp_1"
          { NewCpCode with ProductID := "prd_1", CpcodeName := "test cpcode" }]
      rfl rfl rfl rfl
      (Or.inr ⟨fun _ h => by simp [mockEnv] at h, rfl, rfl⟩)).2.1 (by simp [NewCpCode])⟩

end Akamai
